import Mathlib

/-!
# Verification of the BTune auto-tuner (Blosc/BTune)

Shallow embedding of the tuning state machine and the entropy-probe codec
from `src/btune/btune.c` and `src/btune/blosc2_entropy_prober.c`.

C `double` values (scores, times, ratios) are modelled as `ℚ`; C integer
counters, which the code keeps non-negative, are modelled as `ℕ`.
-/

namespace BTune

/-! ## Constants

Constants from the external blosc2 headers (the host compression library);
their numeric values follow `blosc2.h` / `filters-registry.h`. -/
def BLOSC_BLOSCLZ : Nat := 0

def BLOSC_LZ4 : Nat := 1

def BLOSC_LZ4HC : Nat := 2

def BLOSC_ZLIB : Nat := 4

def BLOSC_ZSTD : Nat := 5

def BLOSC_NOFILTER : Nat := 0

def BLOSC_SHUFFLE : Nat := 1

def BLOSC_BITSHUFFLE : Nat := 2

def BLOSC_FILTER_BYTEDELTA : Nat := 35

def BLOSC_ALWAYS_SPLIT : Nat := 1

def BLOSC_NEVER_SPLIT : Nat := 2

def BLOSC2_MAX_OVERHEAD : Nat := 32

/-! Compile-time constants from the top of `btune.c`. -/
def BTUNE_DISABLE_SHUFFLESIZE : Bool := true

def BTUNE_DISABLE_BLOCKSIZE : Bool := true

def BTUNE_DISABLE_MEMCPY : Bool := true

def BTUNE_DISABLE_THREADS : Bool := true

/-! Internal control constants (`enum` at the top of `btune.c`). -/
def BTUNE_KB : Nat := 1024

def MAX_CLEVEL : Nat := 9

def MIN_BLOCK : Nat := 16 * BTUNE_KB

def MAX_BLOCK : Nat := 2 * BTUNE_KB * BTUNE_KB

def MIN_BITSHUFFLE : Nat := 1

def MIN_SHUFFLE : Nat := 2

def MAX_SHUFFLE : Nat := 16

def MIN_THREADS : Nat := 1

def SOFT_STEP_SIZE : Nat := 1

def HARD_STEP_SIZE : Nat := 2

def MAX_STATE_THREADS : Nat := 50

/-! ## Enumerations (`btune.h`) -/
/-- `btune_comp_mode` -/
inductive CompMode where
  | hsp
  | balanced
  | hcr
deriving DecidableEq, Repr

/-- `btune_performance_mode` -/
inductive PerfMode where
  | comp
  | decomp
  | balanced
deriving DecidableEq, Repr

/-- `btune_repeat_mode` -/
inductive RepeatMode where
  | stop
  | repeatSoft
  | repeatAll
deriving DecidableEq, Repr

/-- `btune_state` -/
inductive TState where
  | codecFilter
  | shuffleSize
  | threads
  | clevelState
  | blocksizeState
  | memcpyState
  | waiting
  | stopped
deriving DecidableEq, Repr

/-- `readapt_type` -/
inductive Readapt where
  | wait
  | soft
  | hard
deriving DecidableEq, Repr

/-! ## Data model -/
/-- `btune_behaviour` -/
structure Behaviour where
  nwaits_before_readapt : Nat
  nsofts_before_hard : Nat
  nhards_before_stop : Nat
  repeat_mode : RepeatMode
deriving DecidableEq, Repr

/-- `btune_config` -/
structure Config where
  bandwidth : Nat
  perf_mode : PerfMode
  comp_mode : CompMode
  behaviour : Behaviour
  cparams_hint : Bool
deriving DecidableEq, Repr

/-- `cparams_btune`: one trial parameter set plus its measurements. -/
structure Cparams where
  compcode : Nat
  filter : Nat
  splitmode : Nat
  clevel : Nat
  blocksize : Nat
  shufflesize : Nat
  nthreads_comp : Nat
  nthreads_decomp : Nat
  increasing_clevel : Bool
  increasing_block : Bool
  increasing_shuffle : Bool
  increasing_nthreads : Bool
  score : ℚ
  cratio : ℚ
  ctime : ℚ
  dtime : ℚ
deriving DecidableEq, Repr

/-- `cparams_btune_default` -/
def cparamsDefault : Cparams :=
  { compcode := BLOSC_LZ4
    filter := BLOSC_SHUFFLE
    splitmode := BLOSC_ALWAYS_SPLIT
    clevel := 9
    blocksize := 0
    shufflesize := 0
    nthreads_comp := 0
    nthreads_decomp := 0
    increasing_clevel := false
    increasing_block := true
    increasing_shuffle := true
    increasing_nthreads := false
    score := 100
    cratio := 1
    ctime := 100
    dtime := 100 }

/-- The slice of the host `blosc2_context` that btune reads and writes.
`filters` slot `BLOSC2_MAX_FILTERS-1` is `filter_last`, slot
`BLOSC2_MAX_FILTERS-2` is `filter_prev`; `filters_meta_last` is the meta of
the last slot.  `schunk_typesize` is `context->schunk->typesize`. -/
structure Context where
  compcode : Nat
  filter_last : Nat
  filter_prev : Nat
  filters_meta_last : Nat
  splitmode : Nat
  clevel : Nat
  blocksize : Nat
  typesize : Nat
  schunk_typesize : Nat
  nthreads : Nat
  new_nthreads : Nat
  sourcesize : Nat
  destsize : Nat
deriving DecidableEq, Repr

/-- `btune_struct`.  The one-element `current_scores` / `current_cratios`
arrays (allocated with a single `double` each) are modelled as single
fields.  The optional decompression context is modelled by `dctxPresent`
together with its two thread-count fields. -/
structure BtuneS where
  config : Config
  codecs : List Nat
  filters : List Nat
  best : Cparams
  aux_cparams : Cparams
  current_score : ℚ
  current_cratio : ℚ
  rep_index : Nat
  aux_index : Nat
  steps_count : Nat
  state : TState
  step_size : Nat
  nwaitings : Nat
  nsofts : Nat
  nhards : Nat
  is_repeating : Bool
  readapt_from : Readapt
  max_threads : Nat
  dctxPresent : Bool
  dctx_nthreads : Nat
  dctx_new_nthreads : Nat
  nthreads_decomp : Nat
  threads_for_comp : Bool
deriving DecidableEq, Repr

/-! ## Scoring function (`score_function`, btune.c:757) -/
/-- `score_function`: combines compression time, transfer time of the
compressed bytes at the configured bandwidth, and decompression time,
according to the performance mode. -/
def score_function (cfg : Config) (ctime : ℚ) (cbytes : Nat) (dtime : ℚ) : ℚ :=
  let reduced_cbytes : ℚ := (cbytes : ℚ) / (BTUNE_KB : ℚ)
  match cfg.perf_mode with
  | .comp => ctime + reduced_cbytes / (cfg.bandwidth : ℚ)
  | .decomp => reduced_cbytes / (cfg.bandwidth : ℚ) + dtime
  | .balanced => ctime + reduced_cbytes / (cfg.bandwidth : ℚ) + dtime

/-! ## Improvement predicate (`has_improved`, btune.c:782) -/
/-- `has_improved`: decides improvement from the score coefficient
`best.score / new.score` and the cratio coefficient
`new.cratio / best.cratio`, according to the compression mode. -/
def has_improved (comp_mode : CompMode) (score_coef cratio_coef : ℚ) : Bool :=
  match comp_mode with
  | .hsp =>
      (cratio_coef > 1 && score_coef > 1) ||
      (cratio_coef > 1/2 && score_coef > 2) ||
      (cratio_coef > 67/100 && score_coef > 13/10) ||
      (cratio_coef > 2 && score_coef > 7/10)
  | .balanced =>
      (cratio_coef > 1 && score_coef > 1) ||
      (cratio_coef > 11/10 && score_coef > 8/10) ||
      (cratio_coef > 13/10 && score_coef > 1/2)
  | .hcr => cratio_coef > 1

/-! ## Direction controller (`has_ended_*`, btune.c:128-164) -/
/-- `has_ended_clevel` -/
def has_ended_clevel (bt : BtuneS) : Bool :=
  (bt.best.increasing_clevel && decide (bt.best.clevel ≥ MAX_CLEVEL - bt.step_size)) ||
  (!bt.best.increasing_clevel && decide (bt.best.clevel ≤ 1 + bt.step_size))

/-- `has_ended_shuffle` -/
def has_ended_shuffle (best : Cparams) : Bool :=
  let min_shuffle := if best.filter = BLOSC_SHUFFLE then MIN_SHUFFLE else MIN_BITSHUFFLE
  (best.increasing_shuffle && decide (best.shufflesize = MAX_SHUFFLE)) ||
  (!best.increasing_shuffle && decide (best.shufflesize = min_shuffle))

/-- `has_ended_threads` -/
def has_ended_threads (bt : BtuneS) : Bool :=
  let nthreads := if bt.threads_for_comp then bt.best.nthreads_comp else bt.best.nthreads_decomp
  (bt.best.increasing_nthreads && decide (nthreads = bt.max_threads)) ||
  (!bt.best.increasing_nthreads && decide (nthreads = MIN_THREADS))

/-- `has_ended_blocksize` -/
def has_ended_blocksize (ctx : Context) (bt : BtuneS) : Bool :=
  (bt.best.increasing_block &&
    (decide (bt.best.blocksize > MAX_BLOCK >>> bt.step_size) ||
     decide (bt.best.blocksize > ctx.sourcesize >>> bt.step_size))) ||
  (!bt.best.increasing_block &&
    decide (bt.best.blocksize < MIN_BLOCK <<< bt.step_size))

/-! ## Readapt initialisation (`init_soft`, `init_hard`, `init_without_hards`) -/
/-- `init_soft` (btune.c:167) -/
def init_soft (bt : BtuneS) : BtuneS :=
  let bt : BtuneS :=
    if has_ended_clevel bt then
      { bt with best := { bt.best with increasing_clevel := !bt.best.increasing_clevel } }
    else bt
  { bt with state := .clevelState, step_size := SOFT_STEP_SIZE, readapt_from := .soft }

/-- `init_hard` (btune.c:177) -/
def init_hard (bt : BtuneS) : BtuneS :=
  let bt : BtuneS := { bt with
    state := .codecFilter
    step_size := HARD_STEP_SIZE
    readapt_from := .hard
    threads_for_comp := bt.config.perf_mode ≠ .decomp }
  if has_ended_shuffle bt.best then
    { bt with best := { bt.best with increasing_shuffle := !bt.best.increasing_shuffle } }
  else bt

/-- `init_without_hards` (btune.c:192).  The C `switch` falls through from
`REPEAT_ALL` to `REPEAT_SOFT` to `STOP`, which the nested conditionals
reproduce. -/
def init_without_hards (bt : BtuneS) : BtuneS :=
  let behaviour := bt.config.behaviour
  let minimum_hards : Nat := if bt.config.cparams_hint then 0 else 1
  let bt : BtuneS :=
    match behaviour.repeat_mode with
    | .repeatAll =>
        if behaviour.nhards_before_stop > minimum_hards then init_hard bt
        else if behaviour.nsofts_before_hard > 0 then init_soft bt
        else if minimum_hards = 0 ∧ behaviour.nsofts_before_hard > 0 then init_soft bt
        else { bt with state := .stopped, readapt_from := .wait }
    | .repeatSoft =>
        if behaviour.nsofts_before_hard > 0 then init_soft bt
        else if minimum_hards = 0 ∧ behaviour.nsofts_before_hard > 0 then init_soft bt
        else { bt with state := .stopped, readapt_from := .wait }
    | .stop =>
        if minimum_hards = 0 ∧ behaviour.nsofts_before_hard > 0 then init_soft bt
        else { bt with state := .stopped, readapt_from := .wait }
  { bt with is_repeating := true }

/-- `extract_btune_cparams` (btune.c:111): seed a `cparams_btune` from the
host context (used when `cparams_hint` is set). -/
def extract_btune_cparams (ctx : Context) (bt : BtuneS) (cp : Cparams) : Cparams :=
  { cp with
    compcode := ctx.compcode
    filter := ctx.filter_last
    clevel := ctx.clevel
    splitmode := ctx.splitmode
    blocksize := ctx.blocksize
    shufflesize := ctx.typesize
    nthreads_comp := ctx.nthreads
    nthreads_decomp := if bt.dctxPresent then bt.dctx_nthreads else bt.nthreads_decomp }

/-- `btune_next_blocksize` (btune.c:471): the function starts with
`if (BTUNE_DISABLE_BLOCKSIZE) return;` and the flag is the compile-time
constant `true` in this build, so the auto-blocksize computation below the
early return is dead code and the context is left untouched. -/
def btune_next_blocksize (ctx : Context) : Context :=
  ctx

/-! ## Emitting a proposal (`set_btune_cparams`, btune.c:567) -/
/-- `set_btune_cparams`: writes the proposal into the host context, clamps
the stored proposal to the mode-specific clevel caps, resolves an automatic
blocksize, and routes the decompression thread count.  Note the C code
assigns `context->clevel = cparams->clevel` *before* the two clevel caps,
which modify only `cparams`. -/
def set_btune_cparams (ctx : Context) (bt : BtuneS) (cp : Cparams) :
    Context × BtuneS × Cparams :=
  let ctx : Context := { ctx with compcode := cp.compcode }
  let ctx : Context :=
    if cp.filter = BLOSC_FILTER_BYTEDELTA then
      { ctx with
        filter_prev := BLOSC_SHUFFLE
        filter_last := BLOSC_FILTER_BYTEDELTA
        filters_meta_last := ctx.schunk_typesize }
    else
      { ctx with filter_prev := 0, filter_last := cp.filter }
  let ctx : Context := { ctx with splitmode := cp.splitmode, clevel := cp.clevel }
  -- "Do not set a too large clevel for ZSTD and BALANCED mode"
  let cp : Cparams :=
    if bt.config.comp_mode = .balanced ∧
       (cp.compcode = BLOSC_ZSTD ∨ cp.compcode = BLOSC_ZLIB) ∧ cp.clevel ≥ 3 then
      { cp with clevel := 3 }
    else cp
  -- "Do not set a too large clevel for HCR mode"
  let cp : Cparams :=
    if bt.config.comp_mode = .hcr ∧ cp.clevel ≥ 6 then { cp with clevel := 6 } else cp
  let p : Context × Cparams :=
    if cp.blocksize ≠ 0 then ({ ctx with blocksize := cp.blocksize }, cp)
    else
      let ctx : Context := btune_next_blocksize ctx
      (ctx, { cp with blocksize := ctx.blocksize })
  let ctx : Context := p.1
  let cp : Cparams := p.2
  let ctx : Context := { ctx with typesize := cp.shufflesize, new_nthreads := cp.nthreads_comp }
  let bt : BtuneS :=
    if bt.dctxPresent then { bt with dctx_new_nthreads := cp.nthreads_decomp }
    else { bt with nthreads_decomp := cp.nthreads_decomp }
  (ctx, bt, cp)

/-- Shared tail of `btune_next_cparams`: the C code calls
`set_btune_cparams(context, cparams)` where `cparams` aliases
`btune_params->aux_cparams`, so the clamped proposal lands back in `aux_cparams`. -/
def apply_cparams (ctx : Context) (bt : BtuneS) (cp : Cparams) : Context × BtuneS :=
  let r := set_btune_cparams ctx bt cp
  (r.1, { r.2.1 with aux_cparams := r.2.2 })

/-! ## Parameter proposer (`btune_next_cparams`, btune.c:609) -/
/-- `btune_next_cparams`.  The chunk-0 inference block, which may narrow the
codec and filter candidate lists before the switch, is modelled as the
separate `inference_narrow` step of the transition system; this function
models the remainder of every call. -/
def btune_next_cparams (ctx : Context) (bt : BtuneS) : Context × BtuneS :=
  -- *btune_params->aux_cparams = *btune_params->best
  let cp : Cparams := bt.best
  let bt : BtuneS := { bt with aux_cparams := cp }
  match bt.state with
  | .codecFilter =>
      -- Cycle codecs, filters and splits
      let n_filters_splits := bt.filters.length * 2
      let cp : Cparams := { cp with
        compcode := bt.codecs.getD (bt.aux_index / n_filters_splits) 0
        filter := bt.filters.getD ((bt.aux_index % n_filters_splits) / 2) 0
        splitmode := bt.aux_index % 2 + 1 }
      -- The first tuning of ZSTD in some modes should start in clevel 3
      let perf := bt.config.perf_mode
      let cp : Cparams :=
        if (perf = .comp ∨ perf = .balanced) ∧
           (cp.compcode = BLOSC_ZSTD ∨ cp.compcode = BLOSC_ZLIB) ∧ bt.nhards = 0 then
          { cp with clevel := 3 }
        else cp
      let bt : BtuneS := { bt with aux_index := bt.aux_index + 1 }
      apply_cparams ctx bt cp
  | .shuffleSize =>
      let bt : BtuneS := { bt with aux_index := bt.aux_index + 1 }
      let cp : Cparams :=
        if cp.increasing_shuffle then
          if cp.shufflesize < MAX_SHUFFLE then { cp with shufflesize := cp.shufflesize <<< 1 }
          else cp
        else
          let min_shuffle := if cp.filter = 1 then MIN_SHUFFLE else MIN_BITSHUFFLE
          if cp.shufflesize > min_shuffle then { cp with shufflesize := cp.shufflesize >>> 1 }
          else cp
      apply_cparams ctx bt cp
  | .threads =>
      let bt : BtuneS := { bt with aux_index := bt.aux_index + 1 }
      let nthreads := if bt.threads_for_comp then cp.nthreads_comp else cp.nthreads_decomp
      let nthreads' :=
        if cp.increasing_nthreads then
          if nthreads < bt.max_threads then nthreads + 1 else nthreads
        else
          if nthreads > MIN_THREADS then nthreads - 1 else nthreads
      let cp : Cparams :=
        if bt.threads_for_comp then { cp with nthreads_comp := nthreads' }
        else { cp with nthreads_decomp := nthreads' }
      apply_cparams ctx bt cp
  | .clevelState =>
      -- Force auto blocksize on hard readapts
      let cp : Cparams := if bt.readapt_from = .hard then { cp with blocksize := 0 } else cp
      let bt : BtuneS := { bt with aux_index := bt.aux_index + 1 }
      let cp : Cparams :=
        if cp.increasing_clevel then
          if cp.clevel ≤ MAX_CLEVEL - bt.step_size then
            let cp : Cparams := { cp with clevel := cp.clevel + bt.step_size }
            -- ZSTD level 9 is extremely slow, so avoid it, always
            if cp.clevel = 9 ∧ cp.compcode = BLOSC_ZSTD then { cp with clevel := 8 } else cp
          else cp
        else
          if cp.clevel > bt.step_size then { cp with clevel := cp.clevel - bt.step_size }
          else cp
      apply_cparams ctx bt cp
  | .blocksizeState =>
      let bt : BtuneS := { bt with aux_index := bt.aux_index + 1 }
      if BTUNE_DISABLE_BLOCKSIZE then apply_cparams ctx bt cp
      else
        let step_factor := bt.step_size - 1
        let cp : Cparams :=
          if cp.increasing_block then
            let new_block := cp.blocksize * 1 <<< bt.step_size
            if cp.blocksize ≤ MAX_BLOCK >>> step_factor ∧ new_block ≤ ctx.sourcesize then
              { cp with blocksize := new_block }
            else cp
          else
            if cp.blocksize ≥ MIN_BLOCK <<< step_factor then
              { cp with blocksize := cp.blocksize >>> bt.step_size }
            else cp
        apply_cparams ctx bt cp
  | .memcpyState =>
      let bt : BtuneS := { bt with aux_index := bt.aux_index + 1 }
      apply_cparams ctx bt { cp with clevel := 0 }
  | .waiting =>
      let bt : BtuneS := { bt with nwaitings := bt.nwaitings + 1 }
      apply_cparams ctx bt cp
  | .stopped =>
      (ctx, bt)

/-! ## Readapt scheduler (`process_waiting_state`, btune.c:817) -/
/-- `process_waiting_state`.  In the final "force soft step size on last
hard" test the C code compares `nhards` with `(int)(nhards_before_stop - 1)`
in unsigned 32-bit arithmetic, which is `-1` when `nhards_before_stop = 0`;
the comparison is therefore taken over `ℤ`. -/
def process_from_hard (bt : BtuneS) : BtuneS :=
  let behaviour := bt.config.behaviour
  let minimum_hards : Nat := if bt.config.cparams_hint then 0 else 1
  let bt : BtuneS := { bt with nhards := bt.nhards + 1 }
  -- Last hard (initial readapts completed)
  if behaviour.nhards_before_stop = minimum_hards ∨
     bt.nhards % behaviour.nhards_before_stop = 0 then
    let bt : BtuneS := { bt with is_repeating := true }
    -- There are softs (repeat_mode no stop)
    if behaviour.nsofts_before_hard > 0 ∧ behaviour.repeat_mode ≠ .stop then
      init_soft bt
    -- No softs (repeat_mode soft)
    else if behaviour.repeat_mode ≠ .repeatAll then
      { bt with state := .stopped }
    -- No softs, there are waits (repeat_mode all)
    else if behaviour.nwaits_before_readapt > 0 then
      { bt with state := .waiting, readapt_from := .wait }
    -- No softs, no waits and there are hards (repeat_mode all)
    else if behaviour.nhards_before_stop > minimum_hards then
      init_hard bt
    -- No softs, no waits no hards (repeat_mode all)
    else
      { bt with state := .stopped }
  -- Not the last hard (there are softs readapts)
  else if behaviour.nsofts_before_hard > 0 then
    init_soft bt
  -- No softs but there are waits
  else if behaviour.nwaits_before_readapt > 0 then
    { bt with state := .waiting, readapt_from := .wait }
  -- No softs, no waits
  else
    init_hard bt

def process_from_soft (bt : BtuneS) : BtuneS :=
  let behaviour := bt.config.behaviour
  let minimum_hards : Nat := if bt.config.cparams_hint then 0 else 1
  let bt : BtuneS := { bt with nsofts := bt.nsofts + 1, readapt_from := .wait }
  if behaviour.nwaits_before_readapt = 0 then
    -- Last soft
    if (behaviour.nsofts_before_hard = 0 ∨
        bt.nsofts % behaviour.nsofts_before_hard = 0) ∧
       ¬(bt.is_repeating = true ∧ behaviour.repeat_mode ≠ .repeatAll) ∧
       behaviour.nhards_before_stop > minimum_hards then
      init_hard bt
    -- Special, hint true, no hards, last soft, stop_mode
    else if minimum_hards = 0 ∧ behaviour.nhards_before_stop = 0 ∧
            bt.nsofts % behaviour.nsofts_before_hard = 0 ∧
            behaviour.repeat_mode = .stop then
      { bt with is_repeating := true, state := .stopped }
    -- Not the last soft
    else
      init_soft bt
  else bt

def process_from_wait (bt : BtuneS) : BtuneS :=
  let behaviour := bt.config.behaviour
  let minimum_hards : Nat := if bt.config.cparams_hint then 0 else 1
  -- Last wait
  if behaviour.nwaits_before_readapt = 0 ∨
     (bt.nwaitings ≠ 0 ∧ bt.nwaitings % behaviour.nwaits_before_readapt = 0) then
    -- Last soft
    if (behaviour.nsofts_before_hard = 0 ∨
        (bt.nsofts ≠ 0 ∧ bt.nsofts % behaviour.nsofts_before_hard = 0)) ∧
       ¬(bt.is_repeating = true ∧ behaviour.repeat_mode ≠ .repeatAll) ∧
       behaviour.nhards_before_stop > minimum_hards then
      init_hard bt
    -- Not last soft
    else if behaviour.nsofts_before_hard > 0 ∧
            ¬(bt.is_repeating = true ∧ behaviour.repeat_mode = .stop) then
      init_soft bt
    else bt
  else bt

/-- The `switch (btune_params->readapt_from)` of `process_waiting_state`. -/
def process_waiting_switch (bt : BtuneS) : BtuneS :=
  match bt.readapt_from with
  | .hard => process_from_hard bt
  | .soft => process_from_soft bt
  | .wait => process_from_wait bt

/-- `process_waiting_state`: run the switch on `readapt_from`, then apply
the final "force soft step size on last hard" rule. -/
def process_waiting_state (bt : BtuneS) : BtuneS :=
  let bt := process_waiting_switch bt
  if bt.readapt_from = .hard ∧
     (bt.nhards : ℤ) = (bt.config.behaviour.nhards_before_stop : ℤ) - 1 then
    { bt with step_size := SOFT_STEP_SIZE }
  else bt

/-! ## State transition handling (`update_aux`, btune.c:933) -/
/-- Flip one direction flag of `best` (the C pattern
`best->increasing_x = !best->increasing_x`). -/
def flipClevel (bt : BtuneS) : BtuneS :=
  { bt with best := { bt.best with increasing_clevel := !bt.best.increasing_clevel } }

def flipShuffle (bt : BtuneS) : BtuneS :=
  { bt with best := { bt.best with increasing_shuffle := !bt.best.increasing_shuffle } }

def flipNthreads (bt : BtuneS) : BtuneS :=
  { bt with best := { bt.best with increasing_nthreads := !bt.best.increasing_nthreads } }

def flipBlock (bt : BtuneS) : BtuneS :=
  { bt with best := { bt.best with increasing_block := !bt.best.increasing_block } }

/-- The `switch` statement of `update_aux`: phase transitions after each
improvement decision, before the final `process_waiting_state` dispatch. -/
def update_aux_codec_filter (bt : BtuneS) : BtuneS :=
  -- Reached last combination of codec filter
  if bt.aux_index ≥ bt.codecs.length * bt.filters.length * 2 then
    let bt : BtuneS := { bt with aux_index := 0 }
    let bt : BtuneS :=
      if BTUNE_DISABLE_SHUFFLESIZE then
        { bt with state := if BTUNE_DISABLE_THREADS then .clevelState else .threads }
      else
        let shufflesize := bt.best.shufflesize
        let is_power_2 := shufflesize &&& (shufflesize - 1) = 0
        { bt with state := if bt.best.filter ≠ 0 ∧ is_power_2 then .shuffleSize else .threads }
    -- max_threads must be greater than 1
    let bt : BtuneS :=
      if bt.state = .threads ∧ bt.max_threads = 1 then
        let bt : BtuneS := { bt with state := .clevelState }
        if has_ended_clevel bt then flipClevel bt else bt
      else bt
    -- Control direction parameters
    if ¬BTUNE_DISABLE_SHUFFLESIZE ∧ bt.state = .shuffleSize then
      if has_ended_shuffle bt.best then flipShuffle bt else bt
    else if bt.state = .threads then
      if has_ended_shuffle bt.best then flipNthreads bt else bt
    else bt
  else bt

def update_aux_shuffle_size (bt : BtuneS) (improved first_time : Bool) : BtuneS :=
  let bt : BtuneS := if ¬improved ∧ first_time then flipShuffle bt else bt
  -- Can not change parameter or is not improving
  if has_ended_shuffle bt.best ∨ (¬improved ∧ ¬(first_time = true)) then
    let bt : BtuneS := { bt with aux_index := 0 }
    let bt : BtuneS :=
      if ¬BTUNE_DISABLE_THREADS then { bt with state := .threads }
      else { bt with state := .clevelState }
    -- max_threads must be greater than 1
    if bt.state = .threads ∧ bt.max_threads = 1 then
      let bt : BtuneS := { bt with state := .clevelState }
      if has_ended_clevel bt then flipClevel bt else bt
    else
      if has_ended_threads bt then flipNthreads bt else bt
  else bt

/-- THREADS phase, part 1: the "If perf_mode BALANCED mark btune_params to
change threads for decompression / No BALANCED mark to end" block. -/
def update_aux_threads_mark (bt : BtuneS) : BtuneS :=
  if bt.config.perf_mode = .balanced then
    if bt.aux_index < MAX_STATE_THREADS then
      let bt : BtuneS := { bt with
        threads_for_comp := !bt.threads_for_comp
        aux_index := MAX_STATE_THREADS }
      if has_ended_threads bt then flipNthreads bt else bt
    else bt
  else { bt with aux_index := MAX_STATE_THREADS + 1 }

/-- THREADS phase, part 2: the "THREADS ended" block. -/
def update_aux_threads_end (bt : BtuneS) : BtuneS :=
  if bt.aux_index > MAX_STATE_THREADS then
    let bt : BtuneS := { bt with aux_index := 0, state := .clevelState }
    if has_ended_clevel bt then flipClevel bt else bt
  else bt

def update_aux_threads_phase (bt : BtuneS) (improved : Bool) : BtuneS :=
  let first_time := bt.aux_index % MAX_STATE_THREADS = 1
  let bt : BtuneS := if ¬improved ∧ first_time then flipNthreads bt else bt
  -- Can not change parameter or is not improving
  if has_ended_threads bt ∨ (¬improved ∧ ¬first_time) then
    update_aux_threads_end (update_aux_threads_mark bt)
  else bt

def update_aux_clevel (ctx : Context) (bt : BtuneS) (improved first_time : Bool) : BtuneS :=
  let bt : BtuneS := if ¬improved ∧ first_time then flipClevel bt else bt
  -- Can not change parameter or is not improving
  if has_ended_clevel bt ∨ (¬improved ∧ ¬(first_time = true)) then
    let bt : BtuneS := { bt with aux_index := 0 }
    let bt : BtuneS :=
      if ¬BTUNE_DISABLE_BLOCKSIZE then { bt with state := .blocksizeState }
      else if ¬BTUNE_DISABLE_MEMCPY then { bt with state := .memcpyState }
      else { bt with state := .waiting }
    if has_ended_blocksize ctx bt then flipBlock bt else bt
  else bt

def update_aux_blocksize (ctx : Context) (bt : BtuneS) (improved first_time : Bool) : BtuneS :=
  let bt : BtuneS := if ¬improved ∧ first_time then flipBlock bt else bt
  -- Can not change parameter or is not improving
  if has_ended_blocksize ctx bt ∨ (¬improved ∧ ¬(first_time = true)) then
    let bt : BtuneS := { bt with aux_index := 0 }
    if bt.config.comp_mode = .hsp then
      if ¬BTUNE_DISABLE_MEMCPY then { bt with state := .memcpyState }
      else { bt with state := .waiting }
    else { bt with state := .waiting }
  else bt

/-- The `switch (btune_params->state)` of `update_aux`, with
`first_time = (aux_index == 1)` computed up front as in the C code. -/
def update_aux_switch (ctx : Context) (bt : BtuneS) (improved : Bool) : BtuneS :=
  let first_time := bt.aux_index = 1
  match bt.state with
  | .codecFilter => update_aux_codec_filter bt
  | .shuffleSize => update_aux_shuffle_size bt improved first_time
  | .threads => update_aux_threads_phase bt improved
  | .clevelState => update_aux_clevel ctx bt improved first_time
  | .blocksizeState => update_aux_blocksize ctx bt improved first_time
  | .memcpyState => { bt with aux_index := 0, state := .waiting }
  | _ => bt

/-- `update_aux` (btune.c:933): run the switch, then hand a WAITING state to
the readapt scheduler. -/
def update_aux (ctx : Context) (bt : BtuneS) (improved : Bool) : BtuneS :=
  let bt := update_aux_switch ctx bt improved
  if bt.state = .waiting then process_waiting_state bt else bt

/-! ## Update (`btune_update`, btune.c:1087) -/
/-- Result of one `btune_update` call: the new tuner state, the winner
marker character that the call would print on the `BTUNE_LOG` line
('S' special, 'W' winner, '-' otherwise; '-' also for the early return in
the STOP state, where nothing is printed), and the final improvement
decision passed to `update_aux`. -/
structure UpdateOut where
  bt : BtuneS
  winner : Char
  improved : Bool
deriving DecidableEq, Repr

/-- The degenerate-chunk test of `btune_update` (btune.c:1155): the chunk
compressed into no more than the format overhead plus one item. -/
def update_special (ctx : Context) : Prop :=
  ctx.destsize ≤ BLOSC2_MAX_OVERHEAD + ctx.typesize

instance (ctx : Context) : Decidable (update_special ctx) :=
  inferInstanceAs (Decidable (ctx.destsize ≤ BLOSC2_MAX_OVERHEAD + ctx.typesize))

/-- The improvement decision of `btune_update` (btune.c:1142-1157): the
score/cratio coefficients against `best` feed `has_improved`, except in the
THREADS state where raw `ctime`/`dtime` comparison is used; a special
(degenerate) chunk can never improve, so the decision is overridden to
`false` there.  `dtime` is 0 because the decompression timing block is
commented out in the source. -/
def update_decision (ctx : Context) (bt : BtuneS) (ctime : ℚ) : Bool :=
  let cbytes := ctx.destsize
  let dtime : ℚ := 0
  let score := score_function bt.config ctime cbytes dtime
  let cratio : ℚ := (ctx.sourcesize : ℚ) / (cbytes : ℚ)
  let cratio_coef := cratio / bt.best.cratio
  let score_coef := bt.best.score / score
  let improved :=
    if bt.state = .threads then
      if bt.threads_for_comp then decide (ctime < bt.best.ctime)
      else decide (dtime < bt.best.dtime)
    else has_improved bt.config.comp_mode score_coef cratio_coef
  if update_special ctx then false else improved

/-- `btune_update`: records the measured score and cratio of the trial,
decides improvement, possibly replaces `best`, and advances the state
machine.  The winner marker is 'W' when improved, 'S' when the chunk is
special (in which case the decision is already `false`), '-' otherwise,
exactly as the sequence of assignments in the source produces. -/
def btune_update (ctx : Context) (bt : BtuneS) (ctime : ℚ) : UpdateOut :=
  if bt.state = .stopped then UpdateOut.mk bt '-' false
  else
    let bt : BtuneS := { bt with steps_count := bt.steps_count + 1 }
    let cbytes := ctx.destsize
    let dtime : ℚ := 0
    let score := score_function bt.config ctime cbytes dtime
    let cratio : ℚ := (ctx.sourcesize : ℚ) / (cbytes : ℚ)
    let cp : Cparams := { bt.aux_cparams with
      score := score, cratio := cratio, ctime := ctime, dtime := dtime }
    let bt : BtuneS := { bt with
      aux_cparams := cp
      current_score := score
      current_cratio := cratio
      rep_index := bt.rep_index + 1 }
    if bt.rep_index = 1 then
      -- the mean over the single stored sample equals the sample, so the
      -- coefficients computed here coincide with `update_decision`
      let improved := update_decision ctx bt ctime
      let winner := if improved then 'W' else if update_special ctx then 'S' else '-'
      let bt : BtuneS := if improved then { bt with best := bt.aux_cparams } else bt
      let bt : BtuneS := { bt with rep_index := 0 }
      UpdateOut.mk (update_aux ctx bt improved) winner improved
    else UpdateOut.mk bt '-' false

/-! ## Initialisation (`btune_init`, btune.c:324) -/
/-- `add_codec` (btune.c:62): append if not already present. -/
def add_codec (codecs : List Nat) (compcode : Nat) : List Nat :=
  if compcode ∈ codecs then codecs else codecs ++ [compcode]

/-- `btune_init_codecs` (btune.c:85).  In HCR mode ZSTD and ZLIB are added
only when the host build provides them (`strstr` over
`blosc2_list_compressors()`), modelled by the two availability flags. -/
def btune_init_codecs (cfg : Config) (zstdAvail zlibAvail : Bool) : List Nat :=
  if cfg.comp_mode = .hcr then
    let codecs : List Nat := []
    let codecs := if zstdAvail then add_codec codecs BLOSC_ZSTD else codecs
    if zlibAvail then add_codec codecs BLOSC_ZLIB else codecs
  else
    let codecs := add_codec [] BLOSC_LZ4
    let codecs := if cfg.comp_mode = .balanced then add_codec codecs BLOSC_BLOSCLZ else codecs
    if cfg.perf_mode = .decomp then add_codec codecs BLOSC_LZ4HC else codecs

/-- `btune_init`: build the tuner state attached to the compression context
`cctx`.  `dctx` is the optional decompression context, represented by its
thread count.  A `NULL` config falls back to `BTUNE_CONFIG_DEFAULTS` before
this point, so the resolved configuration is taken as input. -/
def btune_init (cfg : Config) (cctx : Context) (dctx : Option Nat)
    (zstdAvail zlibAvail : Bool) : BtuneS :=
  let codecs := btune_init_codecs cfg zstdAvail zlibAvail
  let filters := [BLOSC_NOFILTER, BLOSC_SHUFFLE, BLOSC_BITSHUFFLE]
  let best : Cparams := { cparamsDefault with compcode := codecs.getD 0 0 }
  let best : Cparams := if cfg.comp_mode = .hcr then { best with clevel := 8 } else best
  let best : Cparams := { best with shufflesize := cctx.typesize, nthreads_comp := cctx.nthreads }
  let max_threads := match dctx with
    | some dn => if cctx.nthreads > dn then cctx.nthreads else dn
    | none => cctx.nthreads
  let best : Cparams := { best with nthreads_decomp := (dctx.getD cctx.nthreads) }
  let bt : BtuneS := {
    config := cfg
    codecs := codecs
    filters := filters
    best := best
    aux_cparams := best
    current_score := 0
    current_cratio := 0
    rep_index := 0
    aux_index := 0
    steps_count := 0
    state := .codecFilter
    step_size := 0
    nwaitings := 0
    nsofts := 0
    nhards := 0
    is_repeating := false
    readapt_from := .wait
    max_threads := max_threads
    dctxPresent := dctx.isSome
    dctx_nthreads := dctx.getD 0
    dctx_new_nthreads := 0
    nthreads_decomp := dctx.getD cctx.nthreads
    threads_for_comp := cfg.perf_mode ≠ .decomp }
  let bt : BtuneS :=
    if cfg.cparams_hint then
      let best : Cparams := extract_btune_cparams cctx bt bt.best
      let bt : BtuneS := { bt with best := best, aux_cparams := best }
      let bt : BtuneS := { bt with codecs := add_codec bt.codecs cctx.compcode }
      if bt.config.behaviour.nhards_before_stop > 0 then
        if bt.config.behaviour.nsofts_before_hard > 0 then init_soft bt
        else if bt.config.behaviour.nwaits_before_readapt > 0 then
          { bt with state := .waiting, readapt_from := .wait }
        else init_hard bt
      else init_without_hards bt
    else
      let bt : BtuneS := init_hard bt
      { bt with config := { bt.config with behaviour :=
          { bt.config.behaviour with
            nhards_before_stop := bt.config.behaviour.nhards_before_stop + 1 } } }
  if bt.config.behaviour.nhards_before_stop = 1 then
    { bt with step_size := SOFT_STEP_SIZE }
  else
    { bt with step_size := HARD_STEP_SIZE }

/-- The effect of a successful chunk-0 model inference
(btune.c:616-625): the candidate lists collapse to the predicted codec and
filter (`codecs[0] = compcode; ncodecs = 1;` and likewise for filters). -/
def inference_narrow (bt : BtuneS) (compcode filter : Nat) : BtuneS :=
  { bt with codecs := [compcode], filters := [filter] }

/-! ## Frame lemmas -/
/-- The non-direction fields of a `cparams_btune` record: everything except
the four `increasing_*` direction flags. -/
def cparamsCore (c : Cparams) :
    (Nat × Nat × Nat × Nat × Nat × Nat × Nat × Nat) × (ℚ × ℚ × ℚ × ℚ) :=
  ((c.compcode, c.filter, c.splitmode, c.clevel, c.blocksize, c.shufflesize,
    c.nthreads_comp, c.nthreads_decomp), (c.score, c.cratio, c.ctime, c.dtime))

/-! ## Entropy probe codec (`blosc2_entropy_prober.c`)

The probe scans a block with a 4-byte rolling hash and accumulates a
virtual output counter `oc` without producing output.  Bytes are modelled
as a `List ℕ` read little-endian (`getD` with default 0 for the reads the C
code performs past the tracked window); the 2^12-entry `uint16_t` hash
table is modelled as a total map `ℕ → ℕ` initialised to 0 — stored values
are scan positions, which never exceed `limit ≤ 4096 < 2^16`, so the
`uint16_t` truncation is the identity. -/
def MAX_COPY : Nat := 32

def MAX_DISTANCE : Nat := 8191

def MAX_FARDISTANCE : Nat := 65535 + MAX_DISTANCE - 1

def HASH_LOG2 : Nat := 12

/-- `HASH_FUNCTION`: 32-bit multiply then shift. -/
def hashFn (seq : Nat) : Nat :=
  (seq * 2654435761) % 2 ^ 32 >>> (32 - HASH_LOG2)

/-- `BLOSCLZ_READU32`: little-endian 4-byte read. -/
def readU32 (b : List Nat) (i : Nat) : Nat :=
  b.getD i 0 + 256 * b.getD (i + 1) 0 + 65536 * b.getD (i + 2) 0 +
    16777216 * b.getD (i + 3) 0

/-- The 8-byte broadcast comparison of `get_run`
(`value2 = ((int64_t*)ref)[0]` against `x` in every byte). -/
def bytes8AllEq (b : List Nat) (ref x : Nat) : Bool :=
  (List.range 8).all fun k => b.getD (ref + k) 0 == x

/-- The 8-byte block comparison of `get_match`. -/
def bytes8PairEq (b : List Nat) (ref ip : Nat) : Bool :=
  (List.range 8).all fun k => b.getD (ref + k) 0 == b.getD (ip + k) 0

/-- Inner loop of `get_run` on a differing 8-byte block
(`while (*ref++ == x) ip++`): number of leading bytes at `ref` equal to
`x`.  The enclosing branch guarantees a mismatch within the 8 compared
bytes, so the count is below the fuel of 8. -/
def run_scan_len (b : List Nat) (x ref : Nat) : Nat → Nat
  | 0 => 0
  | n + 1 => if b.getD ref 0 = x then run_scan_len b x (ref + 1) n + 1 else 0

/-- Inner loop of `get_match` on a differing 8-byte block
(`while (*ref++ == *ip++) {}`): number of leading positions where the two
streams agree; the C post-increments overshoot the mismatch by one byte. -/
def match_scan_len (b : List Nat) (ref ip : Nat) : Nat → Nat
  | 0 => 0
  | n + 1 =>
      if b.getD ref 0 = b.getD ip 0 then match_scan_len b (ref + 1) (ip + 1) n + 1 else 0

/-- Remainder loop of `get_run`:
`while ((ip < ip_bound) && (*ref++ == x)) ip++`. -/
def get_run_rem (b : List Nat) (x ip ref bound : Nat) : Nat :=
  if ip < bound then
    if b.getD ref 0 = x then get_run_rem b x (ip + 1) (ref + 1) bound else ip
  else ip
termination_by bound - ip

/-- Remainder loop of `get_match`:
`while ((ip < ip_bound) && (*ref++ == *ip++)) {}` — on a mismatch the
post-increment has already advanced `ip`. -/
def get_match_rem (b : List Nat) (ip ref bound : Nat) : Nat :=
  if ip < bound then
    if b.getD ref 0 = b.getD ip 0 then get_match_rem b (ip + 1) (ref + 1) bound
    else ip + 1
  else ip
termination_by bound - ip

/-- Main loop of `get_run` (8 bytes at a time). -/
def get_run_loop (b : List Nat) (x ip ref bound : Nat) : Nat :=
  if h : ip < bound - 8 then
    if bytes8AllEq b ref x then get_run_loop b x (ip + 8) (ref + 8) bound
    else ip + run_scan_len b x ref 8
  else get_run_rem b x ip ref bound
termination_by bound - ip
decreasing_by omega

/-- `get_run`: extend a run of the byte `ip[-1]`. -/
def get_run (b : List Nat) (ip bound ref : Nat) : Nat :=
  get_run_loop b (b.getD (ip - 1) 0) ip ref bound

/-- Main loop of `get_match` (8 bytes at a time). -/
def get_match_loop (b : List Nat) (ip ref bound : Nat) : Nat :=
  if h : ip < bound - 8 then
    if bytes8PairEq b ref ip then get_match_loop b (ip + 8) (ref + 8) bound
    else ip + match_scan_len b ref ip 8 + 1
  else get_match_rem b ip ref bound
termination_by bound - ip
decreasing_by omega

/-- `get_match`. -/
def get_match (b : List Nat) (ip bound ref : Nat) : Nat :=
  get_match_loop b ip ref bound

/-- `get_run_or_match`: zero (biased) distance means a run. -/
def get_run_or_match (b : List Nat) (ip bound ref : Nat) (run : Bool) : Nat :=
  if run then get_run b ip bound ref else get_match b ip bound ref

/-- `LITERAL2`: emit one literal; a full group of `MAX_COPY` literals costs
one extra output byte.  Returns the new `(ip, oc, copy)`. -/
def literal2 (anchor oc copy : Nat) : Nat × Nat × Nat :=
  let oc := oc + 1
  let copy := copy + 1
  if copy = MAX_COPY then (anchor + 1, oc + 1, 0) else (anchor + 1, oc, copy)

/-- The main loop of `get_cratio`.  One fuel unit per iteration: with the
shipped parameters (`minlen = ipshift = 3`) every iteration advances `ip`
by at least one, so `limit` fuel makes the structural recursion exact.
When a stale hash entry lies beyond `anchor`, the C unsigned subtraction
wraps to a value `≥ MAX_FARDISTANCE` and takes the literal path; the `ℕ`
truncated subtraction yields 0 and takes the same path. -/
def get_cratio_scan (b : List Nat) (minlen ipshift ip_bound ip_limit : Nat)
    (htab : Nat → Nat) (ip oc copy : Nat) : Nat → Nat × Nat
  | 0 => (ip, oc)
  | fuel + 1 =>
    if ip < ip_limit then
      let anchor := ip
      let seq := readU32 b ip
      let hval := hashFn seq
      let ref := htab hval
      let distance := anchor - ref
      let htab : Nat → Nat := fun i => if i = hval then anchor else htab i
      if distance = 0 ∨ distance ≥ MAX_FARDISTANCE then
        let r := literal2 anchor oc copy
        get_cratio_scan b minlen ipshift ip_bound ip_limit htab r.1 r.2.1 r.2.2 fuel
      else if readU32 b ref ≠ readU32 b ip then
        let r := literal2 anchor oc copy
        get_cratio_scan b minlen ipshift ip_bound ip_limit htab r.1 r.2.1 r.2.2 fuel
      else
        let ref := ref + 4
        let ip := anchor + 4
        let distance := distance - 1
        let ip := get_run_or_match b ip ip_bound ref (distance = 0)
        let ip := ip - ipshift
        let len := ip - anchor
        if len < minlen then
          let r := literal2 anchor oc copy
          get_cratio_scan b minlen ipshift ip_bound ip_limit htab r.1 r.2.1 r.2.2 fuel
        else
          let oc := if copy = 0 then oc - 1 else oc
          let copy := 0
          let oc :=
            if distance < MAX_DISTANCE then
              (if len ≥ 7 then oc + ((len - 7) / 255 + 1) else oc) + 2
            else
              (if len ≥ 7 then oc + ((len - 7) / 255 + 1) else oc) + 4
          let seq := readU32 b ip
          let hval := hashFn seq
          let htab : Nat → Nat := fun i => if i = hval then ip else htab i
          let ip := ip + 2
          let oc := oc + 1
          get_cratio_scan b minlen ipshift ip_bound ip_limit htab ip oc copy fuel
    else (ip, oc)

/-- `get_cratio`, split into the integer counts `(ic, oc)` — scanned bytes
and virtual output — and the final `float` quotient.  The scan starts with
`copy = 4, oc = 5` as in the source. -/
def get_cratio_counts (b : List Nat) (maxlen minlen ipshift : Nat) : Nat × Nat :=
  let hashlen := 2 ^ HASH_LOG2
  let limit := if maxlen > hashlen then hashlen else maxlen
  get_cratio_scan b minlen ipshift (limit - 1) (limit - 12) (fun _ => 0) 0 5 4 limit

/-- `get_cratio`: the estimated compression ratio `ic / oc`. -/
def get_cratio (b : List Nat) (maxlen minlen ipshift : Nat) : ℚ :=
  ((get_cratio_counts b maxlen minlen ipshift).1 : ℚ) /
    ((get_cratio_counts b maxlen minlen ipshift).2 : ℚ)

/-- `encoder` (blosc2_entropy_prober.c:200): derive an estimated compressed
size from the cratio estimate and clamp it to `input_len`.  The C
float-to-int cast truncates the non-negative quotient, i.e. takes the
floor.  (For inputs shorter than 13 bytes the scan is empty and the C
quotient is `len / 0.0f`; the `ℚ` convention `x / 0 = 0` stands in for
that undefined conversion.) -/
def encoder (input : List Nat) (input_len : Nat) : ℤ :=
  let cratio := get_cratio input input_len 3 3
  let cbytes : ℤ := ⌊(input_len : ℚ) / cratio⌋
  if cbytes > (input_len : ℤ) then (input_len : ℤ) else cbytes

/-- Reachable tuner states: those produced by `btune_init` followed by any
sequence of `btune_next_cparams`, `btune_update` and chunk-0 inference
narrowing steps. -/
inductive Reachable : BtuneS → Prop where
  | init (cfg : Config) (cctx : Context) (dctx : Option Nat) (z1 z2 : Bool) :
      Reachable (btune_init cfg cctx dctx z1 z2)
  | next (ctx : Context) (bt : BtuneS) : Reachable bt →
      Reachable (btune_next_cparams ctx bt).2
  | update (ctx : Context) (bt : BtuneS) (t : ℚ) : Reachable bt →
      Reachable (btune_update ctx bt t).bt
  | inference (bt : BtuneS) (c f : Nat) : Reachable bt →
      Reachable (inference_narrow bt c f)

/-! ## Concrete states used to evaluate the tuner -/
/-- A fully balanced configuration with bandwidth 2 kB/s, used as a
concrete evaluation point. -/
def balancedSmallConfig : Config :=
  { bandwidth := 2, perf_mode := .balanced, comp_mode := .balanced,
    behaviour := { nwaits_before_readapt := 0, nsofts_before_hard := 0,
                   nhards_before_stop := 1, repeat_mode := .stop },
    cparams_hint := false }

/-- An HCR configuration tuned for decompression, no hint: the stock way to
run btune in High-Compression-Ratio mode. -/
def hcrDecompConfig : Config :=
  { bandwidth := 1, perf_mode := .decomp, comp_mode := .hcr,
    behaviour := { nwaits_before_readapt := 0, nsofts_before_hard := 0,
                   nhards_before_stop := 1, repeat_mode := .stop },
    cparams_hint := false }

/-- A host compression context with typesize 4 over a 64 KiB chunk. -/
def ctxA : Context :=
  { compcode := 1, filter_last := 1, filter_prev := 0, filters_meta_last := 0,
    splitmode := 1, clevel := 5, blocksize := 0, typesize := 4,
    schunk_typesize := 4, nthreads := 1, new_nthreads := 1,
    sourcesize := 65536, destsize := 0 }

/-- Tuner state right after `btune_init` on `hcrDecompConfig` (ZSTD and
ZLIB available, no decompression context). -/
def btHcr0 : BtuneS := btune_init hcrDecompConfig ctxA none true true

/-- A tuner state that has just finished its configured single hard readapt
and has been put in the STOP state. -/
def btStopped : BtuneS :=
  { config := balancedSmallConfig
    codecs := [BLOSC_LZ4, BLOSC_BLOSCLZ]
    filters := [BLOSC_NOFILTER, BLOSC_SHUFFLE, BLOSC_BITSHUFFLE]
    best := cparamsDefault
    aux_cparams := cparamsDefault
    current_score := 0
    current_cratio := 0
    rep_index := 0
    aux_index := 0
    steps_count := 12
    state := .stopped
    step_size := 1
    nwaitings := 0
    nsofts := 0
    nhards := 0
    is_repeating := false
    readapt_from := .hard
    max_threads := 1
    dctxPresent := false
    dctx_nthreads := 0
    dctx_new_nthreads := 0
    nthreads_decomp := 1
    threads_for_comp := true }

/-- A mid-run tuner state: soft readapt, CLEVEL phase, first trial of the
phase (`aux_index = 1`), with a strong stored best
(`score = 1`, `cratio = 10`). -/
def btTrial : BtuneS :=
  { config := balancedSmallConfig
    codecs := [BLOSC_LZ4, BLOSC_BLOSCLZ]
    filters := [BLOSC_NOFILTER, BLOSC_SHUFFLE, BLOSC_BITSHUFFLE]
    best := { cparamsDefault with
      clevel := 5, shufflesize := 4, nthreads_comp := 1, nthreads_decomp := 1,
      increasing_clevel := true, score := 1, cratio := 10 }
    aux_cparams := { cparamsDefault with
      clevel := 4, shufflesize := 4, nthreads_comp := 1, nthreads_decomp := 1,
      increasing_clevel := true, score := 1, cratio := 10 }
    current_score := 0
    current_cratio := 0
    rep_index := 0
    aux_index := 1
    steps_count := 3
    state := .clevelState
    step_size := 1
    nwaitings := 0
    nsofts := 0
    nhards := 1
    is_repeating := false
    readapt_from := .soft
    max_threads := 1
    dctxPresent := false
    dctx_nthreads := 0
    dctx_new_nthreads := 0
    nthreads_decomp := 1
    threads_for_comp := true }

/-- A 1000-byte chunk that compressed to 900 bytes: a poor trial. -/
def ctxPoor : Context :=
  { ctxA with sourcesize := 1000, destsize := 900 }

/-- A 1000-byte chunk whose compressed size 20 is within
`BLOSC2_MAX_OVERHEAD + typesize = 36`: a special (degenerate) chunk. -/
def ctxSpecial : Context :=
  { ctxA with sourcesize := 1000, destsize := 20 }

/-- A BALANCED-mode tuner in the CODEC_FILTER phase at `aux_index = 7`:
with codecs `[LZ4, BLOSCLZ]` and three filters this selects BLOSCLZ. -/
def btCF : BtuneS := { btTrial with state := .codecFilter, aux_index := 7 }

theorem init_soft_core (bt : BtuneS) :
    cparamsCore (init_soft bt).best = cparamsCore bt.best := by
  unfold init_soft
  dsimp only
  split <;> rfl

theorem init_hard_core (bt : BtuneS) :
    cparamsCore (init_hard bt).best = cparamsCore bt.best := by
  unfold init_hard
  dsimp only
  split <;> rfl

theorem process_from_hard_core (bt : BtuneS) :
    cparamsCore (process_from_hard bt).best = cparamsCore bt.best := by
  unfold process_from_hard init_soft init_hard
  dsimp only
  split_ifs <;> rfl

theorem process_from_soft_core (bt : BtuneS) :
    cparamsCore (process_from_soft bt).best = cparamsCore bt.best := by
  unfold process_from_soft init_soft init_hard
  dsimp only
  split_ifs <;> rfl

theorem process_from_wait_core (bt : BtuneS) :
    cparamsCore (process_from_wait bt).best = cparamsCore bt.best := by
  unfold process_from_wait init_soft init_hard
  dsimp only
  split_ifs <;> rfl

theorem process_waiting_switch_core (bt : BtuneS) :
    cparamsCore (process_waiting_switch bt).best = cparamsCore bt.best := by
  unfold process_waiting_switch
  split
  · exact process_from_hard_core bt
  · exact process_from_soft_core bt
  · exact process_from_wait_core bt

theorem process_waiting_core (bt : BtuneS) :
    cparamsCore (process_waiting_state bt).best = cparamsCore bt.best := by
  unfold process_waiting_state
  dsimp only
  split
  · exact process_waiting_switch_core bt
  · exact process_waiting_switch_core bt

theorem update_aux_codec_filter_core (bt : BtuneS) :
    cparamsCore (update_aux_codec_filter bt).best = cparamsCore bt.best := by
  unfold update_aux_codec_filter flipClevel flipShuffle flipNthreads
  simp only [BTUNE_DISABLE_SHUFFLESIZE, BTUNE_DISABLE_THREADS, BTUNE_DISABLE_MEMCPY,
    BTUNE_DISABLE_BLOCKSIZE, eq_self_iff_true, if_true, ite_true, not_true, false_and,
    and_false, if_false, ite_false]
  split_ifs <;> rfl

theorem update_aux_shuffle_size_core (bt : BtuneS) (i f : Bool) :
    cparamsCore (update_aux_shuffle_size bt i f).best = cparamsCore bt.best := by
  unfold update_aux_shuffle_size flipClevel flipShuffle flipNthreads
  simp only [BTUNE_DISABLE_SHUFFLESIZE, BTUNE_DISABLE_THREADS, BTUNE_DISABLE_MEMCPY,
    BTUNE_DISABLE_BLOCKSIZE, eq_self_iff_true, if_true, ite_true, not_true, false_and,
    and_false, if_false, ite_false]
  split_ifs <;> rfl

theorem update_aux_threads_mark_core (bt : BtuneS) :
    cparamsCore (update_aux_threads_mark bt).best = cparamsCore bt.best := by
  unfold update_aux_threads_mark flipNthreads
  dsimp only
  split_ifs <;> rfl

theorem update_aux_threads_end_core (bt : BtuneS) :
    cparamsCore (update_aux_threads_end bt).best = cparamsCore bt.best := by
  unfold update_aux_threads_end flipClevel
  dsimp only
  split_ifs <;> rfl

theorem update_aux_threads_phase_core (bt : BtuneS) (i : Bool) :
    cparamsCore (update_aux_threads_phase bt i).best = cparamsCore bt.best := by
  unfold update_aux_threads_phase flipNthreads
  dsimp only
  repeat' split
  all_goals first
    | rfl
    | ((rw [update_aux_threads_end_core, update_aux_threads_mark_core]) <;> rfl)

theorem update_aux_clevel_core (ctx : Context) (bt : BtuneS) (i f : Bool) :
    cparamsCore (update_aux_clevel ctx bt i f).best = cparamsCore bt.best := by
  unfold update_aux_clevel flipClevel flipBlock
  simp only [BTUNE_DISABLE_SHUFFLESIZE, BTUNE_DISABLE_THREADS, BTUNE_DISABLE_MEMCPY,
    BTUNE_DISABLE_BLOCKSIZE, eq_self_iff_true, if_true, ite_true, not_true, false_and,
    and_false, if_false, ite_false]
  split_ifs <;> rfl

theorem update_aux_blocksize_core (ctx : Context) (bt : BtuneS) (i f : Bool) :
    cparamsCore (update_aux_blocksize ctx bt i f).best = cparamsCore bt.best := by
  unfold update_aux_blocksize flipBlock
  simp only [BTUNE_DISABLE_SHUFFLESIZE, BTUNE_DISABLE_THREADS, BTUNE_DISABLE_MEMCPY,
    BTUNE_DISABLE_BLOCKSIZE, eq_self_iff_true, if_true, ite_true, not_true, false_and,
    and_false, if_false, ite_false]
  split_ifs <;> rfl

theorem update_aux_switch_core (ctx : Context) (bt : BtuneS) (i : Bool) :
    cparamsCore (update_aux_switch ctx bt i).best = cparamsCore bt.best := by
  unfold update_aux_switch
  dsimp only
  split
  · exact update_aux_codec_filter_core bt
  · exact update_aux_shuffle_size_core bt i _
  · exact update_aux_threads_phase_core bt i
  · exact update_aux_clevel_core _ bt i _
  · exact update_aux_blocksize_core _ bt i _
  · rfl
  · rfl

theorem update_aux_core (ctx : Context) (bt : BtuneS) (i : Bool) :
    cparamsCore (update_aux ctx bt i).best = cparamsCore bt.best := by
  unfold update_aux
  dsimp only
  split
  · rw [process_waiting_core, update_aux_switch_core]
  · rw [update_aux_switch_core]

theorem process_from_hard_config (bt : BtuneS) :
    (process_from_hard bt).config = bt.config := by
  unfold process_from_hard init_soft init_hard
  dsimp only
  split_ifs <;> rfl

theorem process_from_soft_config (bt : BtuneS) :
    (process_from_soft bt).config = bt.config := by
  unfold process_from_soft init_soft init_hard
  dsimp only
  split_ifs <;> rfl

theorem process_from_wait_config (bt : BtuneS) :
    (process_from_wait bt).config = bt.config := by
  unfold process_from_wait init_soft init_hard
  dsimp only
  split_ifs <;> rfl

theorem process_waiting_config (bt : BtuneS) :
    (process_waiting_state bt).config = bt.config := by
  unfold process_waiting_state process_waiting_switch
  dsimp only
  split
  · split
    · exact process_from_hard_config bt
    · exact process_from_soft_config bt
    · exact process_from_wait_config bt
  · split
    · exact process_from_hard_config bt
    · exact process_from_soft_config bt
    · exact process_from_wait_config bt

theorem update_aux_codec_filter_frame (bt : BtuneS) :
    (update_aux_codec_filter bt).config = bt.config ∧
    (update_aux_codec_filter bt).readapt_from = bt.readapt_from ∧
    (update_aux_codec_filter bt).aux_cparams = bt.aux_cparams := by
  unfold update_aux_codec_filter flipClevel flipShuffle flipNthreads
  simp only [BTUNE_DISABLE_SHUFFLESIZE, BTUNE_DISABLE_THREADS, BTUNE_DISABLE_MEMCPY,
    BTUNE_DISABLE_BLOCKSIZE, eq_self_iff_true, if_true, ite_true, not_true, false_and,
    and_false, if_false, ite_false]
  split_ifs <;> exact ⟨rfl, rfl, rfl⟩

theorem update_aux_shuffle_size_frame (bt : BtuneS) (i f : Bool) :
    (update_aux_shuffle_size bt i f).config = bt.config ∧
    (update_aux_shuffle_size bt i f).readapt_from = bt.readapt_from ∧
    (update_aux_shuffle_size bt i f).aux_cparams = bt.aux_cparams := by
  unfold update_aux_shuffle_size flipClevel flipShuffle flipNthreads
  simp only [BTUNE_DISABLE_SHUFFLESIZE, BTUNE_DISABLE_THREADS, BTUNE_DISABLE_MEMCPY,
    BTUNE_DISABLE_BLOCKSIZE, eq_self_iff_true, if_true, ite_true, not_true, false_and,
    and_false, if_false, ite_false]
  split_ifs <;> exact ⟨rfl, rfl, rfl⟩

theorem update_aux_threads_mark_frame (bt : BtuneS) :
    (update_aux_threads_mark bt).config = bt.config ∧
    (update_aux_threads_mark bt).readapt_from = bt.readapt_from ∧
    (update_aux_threads_mark bt).aux_cparams = bt.aux_cparams := by
  unfold update_aux_threads_mark flipNthreads
  dsimp only
  split_ifs <;> exact ⟨rfl, rfl, rfl⟩

theorem update_aux_threads_end_frame (bt : BtuneS) :
    (update_aux_threads_end bt).config = bt.config ∧
    (update_aux_threads_end bt).readapt_from = bt.readapt_from ∧
    (update_aux_threads_end bt).aux_cparams = bt.aux_cparams := by
  unfold update_aux_threads_end flipClevel
  dsimp only
  split_ifs <;> exact ⟨rfl, rfl, rfl⟩

theorem frame3_trans {a b c : BtuneS}
    (h1 : a.config = b.config ∧ a.readapt_from = b.readapt_from ∧ a.aux_cparams = b.aux_cparams)
    (h2 : b.config = c.config ∧ b.readapt_from = c.readapt_from ∧ b.aux_cparams = c.aux_cparams) :
    a.config = c.config ∧ a.readapt_from = c.readapt_from ∧ a.aux_cparams = c.aux_cparams :=
  ⟨h1.1.trans h2.1, h1.2.1.trans h2.2.1, h1.2.2.trans h2.2.2⟩

theorem update_aux_threads_phase_frame (bt : BtuneS) (i : Bool) :
    (update_aux_threads_phase bt i).config = bt.config ∧
    (update_aux_threads_phase bt i).readapt_from = bt.readapt_from ∧
    (update_aux_threads_phase bt i).aux_cparams = bt.aux_cparams := by
  unfold update_aux_threads_phase flipNthreads
  dsimp only
  repeat' split
  all_goals first
    | exact ⟨rfl, rfl, rfl⟩
    | exact frame3_trans
        (frame3_trans (update_aux_threads_end_frame _) (update_aux_threads_mark_frame _))
        ⟨rfl, rfl, rfl⟩

theorem update_aux_clevel_frame (ctx : Context) (bt : BtuneS) (i f : Bool) :
    (update_aux_clevel ctx bt i f).config = bt.config ∧
    (update_aux_clevel ctx bt i f).readapt_from = bt.readapt_from ∧
    (update_aux_clevel ctx bt i f).aux_cparams = bt.aux_cparams := by
  unfold update_aux_clevel flipClevel flipBlock
  simp only [BTUNE_DISABLE_SHUFFLESIZE, BTUNE_DISABLE_THREADS, BTUNE_DISABLE_MEMCPY,
    BTUNE_DISABLE_BLOCKSIZE, eq_self_iff_true, if_true, ite_true, not_true, false_and,
    and_false, if_false, ite_false]
  split_ifs <;> exact ⟨rfl, rfl, rfl⟩

theorem update_aux_blocksize_frame (ctx : Context) (bt : BtuneS) (i f : Bool) :
    (update_aux_blocksize ctx bt i f).config = bt.config ∧
    (update_aux_blocksize ctx bt i f).readapt_from = bt.readapt_from ∧
    (update_aux_blocksize ctx bt i f).aux_cparams = bt.aux_cparams := by
  unfold update_aux_blocksize flipBlock
  simp only [BTUNE_DISABLE_SHUFFLESIZE, BTUNE_DISABLE_THREADS, BTUNE_DISABLE_MEMCPY,
    BTUNE_DISABLE_BLOCKSIZE, eq_self_iff_true, if_true, ite_true, not_true, false_and,
    and_false, if_false, ite_false]
  split_ifs <;> exact ⟨rfl, rfl, rfl⟩

theorem update_aux_switch_frame (ctx : Context) (bt : BtuneS) (i : Bool) :
    (update_aux_switch ctx bt i).config = bt.config ∧
    (update_aux_switch ctx bt i).readapt_from = bt.readapt_from ∧
    (update_aux_switch ctx bt i).aux_cparams = bt.aux_cparams := by
  unfold update_aux_switch
  dsimp only
  split
  · exact update_aux_codec_filter_frame bt
  · exact update_aux_shuffle_size_frame bt i _
  · exact update_aux_threads_phase_frame bt i
  · exact update_aux_clevel_frame _ bt i _
  · exact update_aux_blocksize_frame _ bt i _
  · exact ⟨rfl, rfl, rfl⟩
  · exact ⟨rfl, rfl, rfl⟩

theorem process_from_hard_aux (bt : BtuneS) :
    (process_from_hard bt).aux_cparams = bt.aux_cparams := by
  unfold process_from_hard init_soft init_hard
  dsimp only
  split_ifs <;> rfl

theorem process_from_soft_aux (bt : BtuneS) :
    (process_from_soft bt).aux_cparams = bt.aux_cparams := by
  unfold process_from_soft init_soft init_hard
  dsimp only
  split_ifs <;> rfl

theorem process_from_wait_aux (bt : BtuneS) :
    (process_from_wait bt).aux_cparams = bt.aux_cparams := by
  unfold process_from_wait init_soft init_hard
  dsimp only
  split_ifs <;> rfl

theorem process_waiting_aux (bt : BtuneS) :
    (process_waiting_state bt).aux_cparams = bt.aux_cparams := by
  unfold process_waiting_state process_waiting_switch
  dsimp only
  split
  · split
    · exact process_from_hard_aux bt
    · exact process_from_soft_aux bt
    · exact process_from_wait_aux bt
  · split
    · exact process_from_hard_aux bt
    · exact process_from_soft_aux bt
    · exact process_from_wait_aux bt

/-- `update_aux` leaves the configuration and the stored trial parameters
(`aux_cparams`) untouched. -/
theorem update_aux_frame (ctx : Context) (bt : BtuneS) (i : Bool) :
    (update_aux ctx bt i).config = bt.config ∧
    (update_aux ctx bt i).aux_cparams = bt.aux_cparams := by
  unfold update_aux
  dsimp only
  split
  · exact ⟨(process_waiting_config _).trans (update_aux_switch_frame ctx bt i).1,
      (process_waiting_aux _).trans (update_aux_switch_frame ctx bt i).2.2⟩
  · exact ⟨(update_aux_switch_frame ctx bt i).1, (update_aux_switch_frame ctx bt i).2.2⟩

/-- `btune_next_cparams` never changes the readapt kind or the
configuration. -/
theorem set_btune_cparams_frame (ctx : Context) (bt : BtuneS) (cp : Cparams) :
    (set_btune_cparams ctx bt cp).2.1.readapt_from = bt.readapt_from ∧
    (set_btune_cparams ctx bt cp).2.1.config = bt.config := by
  unfold set_btune_cparams btune_next_blocksize
  dsimp only
  split_ifs <;> exact ⟨rfl, rfl⟩

theorem apply_cparams_frame (ctx : Context) (bt : BtuneS) (cp : Cparams) :
    (apply_cparams ctx bt cp).2.readapt_from = bt.readapt_from ∧
    (apply_cparams ctx bt cp).2.config = bt.config := by
  unfold apply_cparams
  dsimp only
  exact ⟨(set_btune_cparams_frame ctx bt cp).1, (set_btune_cparams_frame ctx bt cp).2⟩

theorem btune_next_cparams_frame (ctx : Context) (bt : BtuneS) :
    (btune_next_cparams ctx bt).2.readapt_from = bt.readapt_from ∧
    (btune_next_cparams ctx bt).2.config = bt.config := by
  unfold btune_next_cparams
  dsimp only
  repeat' split
  all_goals first
    | exact ⟨rfl, rfl⟩
    | exact ⟨(apply_cparams_frame _ _ _).1, (apply_cparams_frame _ _ _).2⟩

/-- With no hard readapts configured, the scheduler never enters a hard
readapt from SOFT. -/
theorem process_from_soft_no_hard (bt : BtuneS)
    (h0 : bt.config.behaviour.nhards_before_stop = 0) :
    ¬(process_from_soft bt).readapt_from = .hard := by
  unfold process_from_soft init_soft init_hard
  dsimp only
  split_ifs <;> intro hh <;> simp_all

/-- With no hard readapts configured, the scheduler never enters a hard
readapt from WAIT. -/
theorem process_from_wait_no_hard (bt : BtuneS)
    (h0 : bt.config.behaviour.nhards_before_stop = 0)
    (hr : ¬bt.readapt_from = .hard) :
    ¬(process_from_wait bt).readapt_from = .hard := by
  unfold process_from_wait init_soft init_hard
  dsimp only
  split_ifs <;> intro hh <;> simp_all

/-- With no hard readapts configured and not already in a hard readapt,
`process_waiting_state` cannot produce a hard readapt. -/
theorem process_waiting_no_hard (bt : BtuneS)
    (h0 : bt.config.behaviour.nhards_before_stop = 0)
    (hr : ¬bt.readapt_from = .hard) :
    ¬(process_waiting_state bt).readapt_from = .hard := by
  unfold process_waiting_state process_waiting_switch
  dsimp only
  split
  all_goals split
  · exact absurd (by assumption) hr
  · exact process_from_soft_no_hard bt h0
  · exact process_from_wait_no_hard bt h0 hr
  · exact absurd (by assumption) hr
  · exact process_from_soft_no_hard bt h0
  · exact process_from_wait_no_hard bt h0 hr

/-- With no hard readapts configured and not already in a hard readapt,
`update_aux` cannot produce a hard readapt. -/
theorem update_aux_no_hard (ctx : Context) (bt : BtuneS) (i : Bool)
    (h0 : bt.config.behaviour.nhards_before_stop = 0)
    (hr : ¬bt.readapt_from = .hard) :
    ¬(update_aux ctx bt i).readapt_from = .hard := by
  unfold update_aux
  dsimp only
  split
  · apply process_waiting_no_hard
    · rw [(update_aux_switch_frame ctx bt i).1]; exact h0
    · rw [(update_aux_switch_frame ctx bt i).2.1]; exact hr
  · rw [(update_aux_switch_frame ctx bt i).2.1]; exact hr

/-- `btune_update` preserves "a hard readapt implies hard readapts are
configured". -/
theorem btune_update_hard_inv (ctx : Context) (bt : BtuneS) (t : ℚ)
    (h : bt.readapt_from = .hard → 1 ≤ bt.config.behaviour.nhards_before_stop) :
    (btune_update ctx bt t).bt.readapt_from = .hard →
      1 ≤ (btune_update ctx bt t).bt.config.behaviour.nhards_before_stop := by
  unfold btune_update
  split
  · exact h
  · dsimp only
    split
    · by_cases hn : 1 ≤ bt.config.behaviour.nhards_before_stop
      · intro _
        rw [(update_aux_frame _ _ _).1]
        dsimp only
        split <;> exact hn
      · have h0 : bt.config.behaviour.nhards_before_stop = 0 := by omega
        have hr : ¬bt.readapt_from = .hard := fun hh => hn (h hh)
        intro hh
        exact absurd hh (update_aux_no_hard ctx _ _
          (by dsimp only; split <;> exact h0)
          (by dsimp only; split <;> exact hr))
    · exact h

theorem init_soft_readapt (bt : BtuneS) : (init_soft bt).readapt_from = .soft := rfl

theorem init_hard_readapt (bt : BtuneS) : (init_hard bt).readapt_from = .hard := by
  unfold init_hard
  dsimp only
  split <;> rfl

theorem init_hard_config (bt : BtuneS) : (init_hard bt).config = bt.config := by
  unfold init_hard
  dsimp only
  split <;> rfl

theorem init_without_hards_hard_inv (bt : BtuneS) :
    (init_without_hards bt).readapt_from = .hard →
      1 ≤ (init_without_hards bt).config.behaviour.nhards_before_stop := by
  unfold init_without_hards
  dsimp only
  repeat' split
  all_goals intro hh
  all_goals (try rw [init_soft_readapt] at hh)
  all_goals (try rw [init_hard_readapt] at hh)
  all_goals (try rw [init_hard_config])
  all_goals (try dsimp only at hh ⊢)
  all_goals first
    | omega
    | simp_all

set_option maxHeartbeats 1000000 in
/-- `btune_init` establishes "a hard readapt implies hard readapts are
configured". -/
theorem btune_init_hard_inv (cfg : Config) (cctx : Context) (dctx : Option Nat)
    (z1 z2 : Bool) :
    (btune_init cfg cctx dctx z1 z2).readapt_from = .hard →
      1 ≤ (btune_init cfg cctx dctx z1 z2).config.behaviour.nhards_before_stop := by
  unfold btune_init
  dsimp only
  repeat' split
  all_goals intro hh
  all_goals (try rw [init_soft_readapt] at hh)
  all_goals (try rw [init_hard_readapt] at hh)
  all_goals (try rw [init_hard_config])
  all_goals (try dsimp only at hh ⊢)
  all_goals first
    | omega
    | exact init_without_hards_hard_inv _ hh
    | simp_all

/-! ## Claim theorems -/
/-- C4: with `repeat_mode = STOP` and `nsofts_before_hard = 0`, completing
the configured number of hard readapts drives the scheduler into STOP, and
STOP absorbs: `next_cparams` leaves the context and the tuner state and
best untouched, and `update` is the identity on the tuner state (it never
writes the context at all). -/
theorem stop_after_configured_hards (bt : BtuneS) (ctx : Context) (t : ℚ)
    (hrm : bt.config.behaviour.repeat_mode = .stop)
    (hns : bt.config.behaviour.nsofts_before_hard = 0)
    (hpos : 1 ≤ bt.config.behaviour.nhards_before_stop) :
    (bt.readapt_from = .hard →
      bt.nhards + 1 = bt.config.behaviour.nhards_before_stop →
      (process_waiting_state bt).state = .stopped) ∧
    (bt.state = .stopped →
      (btune_next_cparams ctx bt).1 = ctx ∧
      (btune_next_cparams ctx bt).2.state = .stopped ∧
      (btune_next_cparams ctx bt).2.best = bt.best ∧
      (btune_update ctx bt t).bt = bt) := by
  constructor
  · intro hrf hdone
    have hmod : (bt.nhards + 1) % bt.config.behaviour.nhards_before_stop = 0 := by
      rw [hdone]; exact Nat.mod_self _
    unfold process_waiting_state process_waiting_switch process_from_hard
    rw [hrf]
    dsimp only
    rw [if_pos (Or.inr hmod)]
    rw [if_neg (show ¬(bt.config.behaviour.nsofts_before_hard > 0 ∧
      bt.config.behaviour.repeat_mode ≠ RepeatMode.stop) by simp [hns])]
    rw [if_pos (show bt.config.behaviour.repeat_mode ≠ RepeatMode.repeatAll by simp [hrm])]
    rw [if_neg ?hlast]
    case hlast =>
      rintro ⟨-, h2⟩
      dsimp only at h2
      omega
  · intro hstop
    unfold btune_next_cparams btune_update
    rw [if_pos hstop]
    dsimp only
    simp only [hstop]
    exact ⟨trivial, trivial, trivial, trivial⟩

/-- C1: "For every parameter set emitted by next_cparams into the
compression context, the compression level satisfies 1 <= clevel <= 9;
additionally, under comp_mode HCR the emitted clevel is <= 6, ...".
The code violates the HCR cap on the context: `set_btune_cparams` assigns
`context->clevel = cparams->clevel` *before* applying the HCR cap, which
only rewrites `cparams->clevel`.  On the very first proposal of an HCR run
with `perf_mode = DECOMP` (initial `clevel = 8`, codec ZSTD), the context
receives clevel 8 > 6 while the stored proposal is clamped to 6. -/
theorem hcr_first_proposal_emits_unclamped_clevel :
    btHcr0.config.comp_mode = .hcr ∧
    btHcr0.state = .codecFilter ∧
    (btune_next_cparams ctxA btHcr0).1.compcode = BLOSC_ZSTD ∧
    (btune_next_cparams ctxA btHcr0).1.clevel = 8 ∧
    ¬((btune_next_cparams ctxA btHcr0).1.clevel ≤ 6) ∧
    (btune_next_cparams ctxA btHcr0).2.aux_cparams.clevel = 6 := by
  decide

/-- Witness for C4 on `btStopped` (both the completion step and the
absorption of the STOP state). -/
theorem stop_after_configured_hards_witness :
    (process_waiting_state btStopped).state = .stopped ∧
    (btune_next_cparams ctxA btStopped).1 = ctxA ∧
    (btune_next_cparams ctxA btStopped).2.state = .stopped ∧
    (btune_next_cparams ctxA btStopped).2.best = btStopped.best ∧
    (btune_update ctxA btStopped 1).bt = btStopped :=
  have h := stop_after_configured_hards btStopped ctxA 1 (by decide) (by decide) (by decide)
  ⟨h.1 (by decide) (by decide), (h.2 (by decide)).1, (h.2 (by decide)).2.1,
    (h.2 (by decide)).2.2.1, (h.2 (by decide)).2.2.2⟩

/-- C5, counterexample: on a special chunk the update still mutates `best`
(the CLEVEL direction flag is toggled by the state transition), so "best is
left unchanged by that update" fails as stated. -/
theorem special_chunk_update_changes_best :
    ctxSpecial.destsize ≤ BLOSC2_MAX_OVERHEAD + ctxSpecial.typesize ∧
    (btune_update ctxSpecial btTrial 1).winner = 'S' ∧
    (btune_update ctxSpecial btTrial 1).bt.best.increasing_clevel = false ∧
    btTrial.best.increasing_clevel = true := by
  decide

/-- C5, amended: on a special chunk (`cbytes ≤ BLOSC2_MAX_OVERHEAD +
typesize`), the improvement decision is overridden to `false`, the log
marker is 'S', and every field of `best` other than the `increasing_*`
direction flags is unchanged by the update. -/
theorem update_decision_of_special (ctx : Context) (bt : BtuneS) (t : ℚ)
    (hspec : update_special ctx) : update_decision ctx bt t = false := by
  unfold update_decision
  dsimp only
  rw [if_pos hspec]

theorem special_chunk_forces_no_improvement (ctx : Context) (bt : BtuneS) (t : ℚ)
    (hstop : ¬bt.state = .stopped) (hrep : bt.rep_index = 0)
    (hspec : ctx.destsize ≤ BLOSC2_MAX_OVERHEAD + ctx.typesize) :
    (btune_update ctx bt t).improved = false ∧
    (btune_update ctx bt t).winner = 'S' ∧
    cparamsCore (btune_update ctx bt t).bt.best = cparamsCore bt.best := by
  have hspec' : update_special ctx := hspec
  unfold btune_update
  rw [if_neg hstop]
  dsimp only
  simp only [hrep, Nat.zero_add, eq_self_iff_true, if_true, ite_true]
  simp only [update_decision_of_special _ _ _ hspec', Bool.false_eq_true, if_false,
    ite_false, hspec', ite_true, if_true]
  exact ⟨trivial, trivial, update_aux_core _ _ _⟩

/-- Witness for C5 at the special chunk `ctxSpecial` and state `btTrial`. -/
theorem special_chunk_forces_no_improvement_witness :
    ctxSpecial.destsize ≤ BLOSC2_MAX_OVERHEAD + ctxSpecial.typesize ∧
    ((btune_update ctxSpecial btTrial 1).improved = false ∧
     (btune_update ctxSpecial btTrial 1).winner = 'S' ∧
     cparamsCore (btune_update ctxSpecial btTrial 1).bt.best = cparamsCore btTrial.best) :=
  ⟨by decide,
   special_chunk_forces_no_improvement ctxSpecial btTrial 1 (by decide) (by decide) (by decide)⟩

/-- `update_decision` only reads `best`, `state`, `threads_for_comp` and
the configuration from the tuner state. -/
theorem update_decision_eq_of (ctx : Context) (t : ℚ) (bt bt' : BtuneS)
    (h1 : bt'.best = bt.best) (h2 : bt'.state = bt.state)
    (h3 : bt'.config = bt.config) (h4 : bt'.threads_for_comp = bt.threads_for_comp) :
    update_decision ctx bt' t = update_decision ctx bt t := by
  unfold update_decision
  rw [h1, h2, h3, h4]

/-- The 900-of-1000-bytes trial against a best of cratio 10 is rejected by
the BALANCED improvement predicate. -/
theorem ctxPoor_not_improved : update_decision ctxPoor btTrial 1 = false := by
  norm_num [update_decision, update_special, score_function, has_improved, btTrial,
    ctxPoor, ctxA, balancedSmallConfig, cparamsDefault, BTUNE_KB, BLOSC2_MAX_OVERHEAD]
  decide

/-- C6, counterexample: in an update where the improvement decision is
`false`, `best` is nevertheless mutated — the `increasing_clevel` direction
flag is toggled by the CLEVEL transition — so "every field of best is
unchanged" fails as stated. -/
theorem best_flag_flips_without_improvement :
    (btune_update ctxPoor btTrial 1).improved = false ∧
    (btune_update ctxPoor btTrial 1).bt.best.increasing_clevel = false ∧
    btTrial.best.increasing_clevel = true := by
  unfold btune_update
  rw [if_neg (by decide)]
  dsimp only
  rw [if_pos (by decide)]
  rw [update_decision_eq_of ctxPoor 1 btTrial, ctxPoor_not_improved]
  · simp only [Bool.false_eq_true, if_false, ite_false]
    refine ⟨trivial, ?_, rfl⟩
    decide
  all_goals rfl

/-- If the improvement decision is `true`, the chunk was not special and,
outside the THREADS state, the §4.2 predicate itself accepted the trial. -/
theorem update_decision_true_has_improved (ctx : Context) (bt : BtuneS) (t : ℚ)
    (h : update_decision ctx bt t = true) (hth : ¬bt.state = .threads) :
    has_improved bt.config.comp_mode
      (bt.best.score / score_function bt.config t ctx.destsize 0)
      (((ctx.sourcesize : ℚ) / (ctx.destsize : ℚ)) / bt.best.cratio) = true := by
  unfold update_decision at h
  dsimp only at h
  rw [if_neg hth] at h
  split_ifs at h
  exact h

/-- C6, amended: `best` is replaced (by the measured trial parameters) when
and only when the final improvement decision is true; when the decision is
true outside the THREADS state the §4.2 Improvement Predicate accepted the
trial; when it is false, every field of `best` other than the
`increasing_*` direction flags is unchanged. -/
theorem best_replaced_only_on_improvement (ctx : Context) (bt : BtuneS) (t : ℚ)
    (hstop : ¬bt.state = .stopped) (hrep : bt.rep_index = 0) :
    ((btune_update ctx bt t).improved = false →
      cparamsCore (btune_update ctx bt t).bt.best = cparamsCore bt.best) ∧
    ((btune_update ctx bt t).improved = true →
      cparamsCore (btune_update ctx bt t).bt.best =
        cparamsCore (btune_update ctx bt t).bt.aux_cparams) ∧
    ((btune_update ctx bt t).improved = true → ¬bt.state = .threads →
      has_improved bt.config.comp_mode
        (bt.best.score / score_function bt.config t ctx.destsize 0)
        (((ctx.sourcesize : ℚ) / (ctx.destsize : ℚ)) / bt.best.cratio) = true) := by
  unfold btune_update
  rw [if_neg hstop]
  dsimp only
  simp only [hrep, Nat.zero_add, eq_self_iff_true, if_true, ite_true]
  refine ⟨fun h => ?_, fun h => ?_, fun h hth => ?_⟩
  · simp only [h, Bool.false_eq_true, if_false, ite_false]
    exact update_aux_core _ _ _
  · simp only [h, if_true, ite_true]
    rw [(update_aux_frame _ _ _).2, update_aux_core]
  · exact update_decision_true_has_improved ctx _ t h hth

/-- Witness for C6 at the non-improving trial `ctxPoor`/`btTrial`. -/
theorem best_replaced_only_on_improvement_witness :
    ((btune_update ctxPoor btTrial 1).improved = false →
      cparamsCore (btune_update ctxPoor btTrial 1).bt.best = cparamsCore btTrial.best) ∧
    ((btune_update ctxPoor btTrial 1).improved = true →
      cparamsCore (btune_update ctxPoor btTrial 1).bt.best =
        cparamsCore (btune_update ctxPoor btTrial 1).bt.aux_cparams) ∧
    ((btune_update ctxPoor btTrial 1).improved = true → ¬btTrial.state = .threads →
      has_improved btTrial.config.comp_mode
        (btTrial.best.score / score_function btTrial.config 1 ctxPoor.destsize 0)
        (((ctxPoor.sourcesize : ℚ) / (ctxPoor.destsize : ℚ)) / btTrial.best.cratio) = true) :=
  best_replaced_only_on_improvement ctxPoor btTrial 1 (by decide) (by decide)

/-- C7, counterexample: the CODEC_FILTER proposer has no BLOSCLZ
splitmode override — at `aux_index = 7` it emits BLOSCLZ together with
`BLOSC_NEVER_SPLIT`, into both the stored proposal and the context. -/
theorem blosclz_proposed_without_split :
    (btune_next_cparams ctxA btCF).2.aux_cparams.compcode = BLOSC_BLOSCLZ ∧
    (btune_next_cparams ctxA btCF).2.aux_cparams.splitmode = BLOSC_NEVER_SPLIT ∧
    (btune_next_cparams ctxA btCF).1.splitmode = BLOSC_NEVER_SPLIT := by
  decide

/-- C7, amended: in the CODEC_FILTER phase the proposal with counter
`aux_index` selects `codecs[aux_index / (nfilters*2)]`,
`filters[(aux_index % (nfilters*2)) / 2]`, and a splitmode alternating
between ALWAYS_SPLIT and NEVER_SPLIT with `aux_index % 2`; the counter
enumerates the full Cartesian product `codecs × filters × {SPLIT,
NO_SPLIT}`; and for ZSTD/ZLIB with perf_mode COMP or BALANCED before any
hard readapt has completed, the proposed clevel is forced to 3.  (There is
no BLOSCLZ always-split override in the code.) -/
theorem codec_filter_enumeration (ctx : Context) (bt : BtuneS)
    (hstate : bt.state = .codecFilter) :
    ((btune_next_cparams ctx bt).2.aux_cparams.compcode =
        bt.codecs.getD (bt.aux_index / (bt.filters.length * 2)) 0 ∧
      (btune_next_cparams ctx bt).2.aux_cparams.filter =
        bt.filters.getD ((bt.aux_index % (bt.filters.length * 2)) / 2) 0 ∧
      (btune_next_cparams ctx bt).2.aux_cparams.splitmode = bt.aux_index % 2 + 1) ∧
    (bt.aux_index % 2 = 0 →
      (btune_next_cparams ctx bt).2.aux_cparams.splitmode = BLOSC_ALWAYS_SPLIT) ∧
    (bt.aux_index % 2 = 1 →
      (btune_next_cparams ctx bt).2.aux_cparams.splitmode = BLOSC_NEVER_SPLIT) ∧
    ((bt.config.perf_mode = .comp ∨ bt.config.perf_mode = .balanced) →
      (bt.codecs.getD (bt.aux_index / (bt.filters.length * 2)) 0 = BLOSC_ZSTD ∨
       bt.codecs.getD (bt.aux_index / (bt.filters.length * 2)) 0 = BLOSC_ZLIB) →
      bt.nhards = 0 →
      (btune_next_cparams ctx bt).2.aux_cparams.clevel = 3) ∧
    (∀ c f sp, c < bt.codecs.length → f < bt.filters.length → sp < 2 →
      ∃ i, i < bt.codecs.length * bt.filters.length * 2 ∧
        i / (bt.filters.length * 2) = c ∧
        (i % (bt.filters.length * 2)) / 2 = f ∧ i % 2 = sp) := by
  have hmain : (btune_next_cparams ctx bt).2.aux_cparams.compcode =
        bt.codecs.getD (bt.aux_index / (bt.filters.length * 2)) 0 ∧
      (btune_next_cparams ctx bt).2.aux_cparams.filter =
        bt.filters.getD ((bt.aux_index % (bt.filters.length * 2)) / 2) 0 ∧
      (btune_next_cparams ctx bt).2.aux_cparams.splitmode = bt.aux_index % 2 + 1 := by
    unfold btune_next_cparams
    simp only [hstate]
    unfold apply_cparams set_btune_cparams btune_next_blocksize
    dsimp only
    split_ifs <;> exact ⟨rfl, rfl, rfl⟩
  refine ⟨hmain, ?_, ?_, ?_, ?_⟩
  · intro h0
    rw [hmain.2.2, h0]
    rfl
  · intro h1
    rw [hmain.2.2, h1]
    rfl
  · intro hperf hcc hnh
    unfold btune_next_cparams
    simp only [hstate]
    unfold apply_cparams set_btune_cparams btune_next_blocksize
    dsimp only
    rw [if_pos (show (bt.config.perf_mode = PerfMode.comp ∨ bt.config.perf_mode = PerfMode.balanced) ∧
      (bt.codecs.getD (bt.aux_index / (bt.filters.length * 2)) 0 = BLOSC_ZSTD ∨
       bt.codecs.getD (bt.aux_index / (bt.filters.length * 2)) 0 = BLOSC_ZLIB) ∧
      bt.nhards = 0 from ⟨hperf, hcc, hnh⟩)]
    split_ifs <;> first
      | rfl
      | simp_all
  · intro c f sp hc hf hsp
    have h1 : 2 * f + sp < bt.filters.length * 2 := by omega
    have hdiv : (c * (bt.filters.length * 2) + (2 * f + sp)) / (bt.filters.length * 2) = c := by
      rw [mul_comm c (bt.filters.length * 2),
        Nat.mul_add_div (by omega : 0 < bt.filters.length * 2), Nat.div_eq_of_lt h1, add_zero]
    have hmod : (c * (bt.filters.length * 2) + (2 * f + sp)) % (bt.filters.length * 2)
        = 2 * f + sp := by
      rw [mul_comm c (bt.filters.length * 2), Nat.mul_add_mod, Nat.mod_eq_of_lt h1]
    refine ⟨c * (bt.filters.length * 2) + (2 * f + sp), ?_, ?_, ?_, ?_⟩
    · calc c * (bt.filters.length * 2) + (2 * f + sp)
          < c * (bt.filters.length * 2) + bt.filters.length * 2 :=
            Nat.add_lt_add_left h1 _
        _ = (c + 1) * (bt.filters.length * 2) := by ring
        _ ≤ bt.codecs.length * (bt.filters.length * 2) :=
            Nat.mul_le_mul_right _ hc
        _ = bt.codecs.length * bt.filters.length * 2 := by ring
    · exact hdiv
    · rw [hmod]; omega
    · have h2 : c * (bt.filters.length * 2) = 2 * (c * bt.filters.length) := by ring
      omega

/-- C10: in every reachable state whose pending readapt is HARD, at least
one hard readapt is configured, so `nhards % nhards_before_stop` in
`process_waiting_state` never divides by zero. -/
theorem reachable_hard_has_hards (bt : BtuneS) (hR : Reachable bt) :
    bt.readapt_from = .hard → 1 ≤ bt.config.behaviour.nhards_before_stop := by
  induction hR with
  | init cfg cctx dctx z1 z2 => exact btune_init_hard_inv cfg cctx dctx z1 z2
  | next ctx bt' hR' ih =>
      intro hr
      rw [(btune_next_cparams_frame ctx bt').1] at hr
      rw [(btune_next_cparams_frame ctx bt').2]
      exact ih hr
  | update ctx bt' t hR' ih => exact btune_update_hard_inv ctx bt' t ih
  | inference bt' c f hR' ih => exact ih

/-- Witness for C10 at the freshly initialised HCR tuner `btHcr0`, which is
in a hard readapt. -/
theorem reachable_hard_has_hards_witness :
    btHcr0.readapt_from = .hard ∧ 1 ≤ btHcr0.config.behaviour.nhards_before_stop :=
  ⟨by decide,
   reachable_hard_has_hards btHcr0 (Reachable.init hcrDecompConfig ctxA none true true)
     (by decide)⟩

/-- Witness for C7 at `btCF` (CODEC_FILTER phase, `aux_index = 7`). -/
theorem codec_filter_enumeration_witness :
    btCF.state = .codecFilter ∧
    ((btune_next_cparams ctxA btCF).2.aux_cparams.compcode =
        btCF.codecs.getD (btCF.aux_index / (btCF.filters.length * 2)) 0 ∧
     (btune_next_cparams ctxA btCF).2.aux_cparams.splitmode = btCF.aux_index % 2 + 1) :=
  ⟨by decide,
   (codec_filter_enumeration ctxA btCF (by decide)).1.1,
   (codec_filter_enumeration ctxA btCF (by decide)).1.2.2⟩

/-- C2: for all positive score and cratio coefficients, `has_improved`
returns true exactly under the mode-specific disjunctions of §4.2. -/
theorem has_improved_characterisation (sc cc : ℚ) (hs : 0 < sc) (hc : 0 < cc) :
    (has_improved .hsp sc cc = true ↔
      ((1 < cc ∧ 1 < sc) ∨ (1/2 < cc ∧ 2 < sc) ∨
       (67/100 < cc ∧ 13/10 < sc) ∨ (2 < cc ∧ 7/10 < sc))) ∧
    (has_improved .balanced sc cc = true ↔
      ((1 < cc ∧ 1 < sc) ∨ (11/10 < cc ∧ 8/10 < sc) ∨ (13/10 < cc ∧ 1/2 < sc))) ∧
    (has_improved .hcr sc cc = true ↔ 1 < cc) := by
  refine ⟨?_, ?_, ?_⟩ <;>
    simp only [has_improved, Bool.or_eq_true, Bool.and_eq_true, decide_eq_true_iff] <;>
    tauto

/-- Witness for C2 at `sc = 2, cc = 2`. -/
theorem has_improved_characterisation_witness :
    (0 : ℚ) < 2 ∧
    ((has_improved .hsp 2 2 = true ↔
      ((1 < (2:ℚ) ∧ 1 < (2:ℚ)) ∨ (1/2 < (2:ℚ) ∧ 2 < (2:ℚ)) ∨
       (67/100 < (2:ℚ) ∧ 13/10 < (2:ℚ)) ∨ (2 < (2:ℚ) ∧ 7/10 < (2:ℚ)))) ∧
     (has_improved .balanced 2 2 = true ↔
      ((1 < (2:ℚ) ∧ 1 < (2:ℚ)) ∨ (11/10 < (2:ℚ) ∧ 8/10 < (2:ℚ)) ∨
       (13/10 < (2:ℚ) ∧ 1/2 < (2:ℚ)))) ∧
     (has_improved .hcr 2 2 = true ↔ 1 < (2:ℚ))) :=
  ⟨by norm_num, has_improved_characterisation 2 2 (by norm_num) (by norm_num)⟩

/-- C3: the score is `ctime + transfer`, `transfer + dtime`, or
`ctime + transfer + dtime` with `transfer = (cbytes/1024)/bandwidth`
according to the perf mode, and is strictly positive for positive inputs. -/
theorem score_function_characterisation (cfg : Config) (ctime dtime : ℚ) (cbytes : Nat)
    (hb : 0 < cfg.bandwidth) (hct : 0 < ctime) (hcb : 0 < cbytes) (hdt : 0 < dtime) :
    (cfg.perf_mode = .comp →
      score_function cfg ctime cbytes dtime =
        ctime + ((cbytes : ℚ) / 1024) / (cfg.bandwidth : ℚ)) ∧
    (cfg.perf_mode = .decomp →
      score_function cfg ctime cbytes dtime =
        ((cbytes : ℚ) / 1024) / (cfg.bandwidth : ℚ) + dtime) ∧
    (cfg.perf_mode = .balanced →
      score_function cfg ctime cbytes dtime =
        ctime + ((cbytes : ℚ) / 1024) / (cfg.bandwidth : ℚ) + dtime) ∧
    0 < score_function cfg ctime cbytes dtime := by
  have htr : 0 < ((cbytes : ℚ) / 1024) / (cfg.bandwidth : ℚ) := by
    apply div_pos (div_pos _ (by norm_num)) (by exact_mod_cast hb)
    exact_mod_cast hcb
  refine ⟨?_, ?_, ?_, ?_⟩
  · intro h; simp [score_function, h, BTUNE_KB]
  · intro h; simp [score_function, h, BTUNE_KB]
  · intro h; simp [score_function, h, BTUNE_KB]
  · cases h : cfg.perf_mode <;>
      simp only [score_function, h, BTUNE_KB, Nat.cast_ofNat] <;> positivity

/-- Witness for C3 on `balancedSmallConfig` with
`ctime = 1, cbytes = 2048, dtime = 1`. -/
theorem score_function_characterisation_witness :
    (0 : Nat) < balancedSmallConfig.bandwidth ∧ (0 : ℚ) < 1 ∧ (0 : Nat) < 2048 ∧
    0 < score_function balancedSmallConfig 1 2048 1 :=
  ⟨by norm_num [balancedSmallConfig], by norm_num, by norm_num,
    (score_function_characterisation balancedSmallConfig 1 1 2048
      (by norm_num [balancedSmallConfig]) (by norm_num) (by norm_num) (by norm_num)).2.2.2⟩

/-- `LITERAL2` never decreases the output counter. -/
theorem literal2_oc_le (a oc c : Nat) : oc ≤ (literal2 a oc c).2.1 := by
  unfold literal2
  dsimp only
  split <;> dsimp only <;> omega

/-- The probe scan never decreases the output counter `oc`: a literal adds
one or two bytes, and a match removes at most one deferred copy byte while
adding an encoding of at least two bytes plus the assumed literal. -/
theorem get_cratio_scan_oc_mono (b : List Nat) (minlen ipshift bd lim : Nat)
    (fuel : Nat) :
    ∀ (htab : Nat → Nat) (ip oc copy : Nat),
      oc ≤ (get_cratio_scan b minlen ipshift bd lim htab ip oc copy fuel).2 := by
  induction fuel with
  | zero => intro htab ip oc copy; exact le_refl _
  | succ n ih =>
    intro htab ip oc copy
    simp only [get_cratio_scan]
    split_ifs <;>
      first
        | exact le_refl _
        | exact le_trans (literal2_oc_le _ _ _) (ih _ _ _ _)
        | exact le_trans (by omega) (ih _ _ _ _)

/-- C8, counterexample: on the 20-byte block `0,1,...,19` the scan takes
eight literal steps (`ip_limit = 20 - 12 = 8`), ending with `ic = 8`
scanned bytes against `oc = 13` virtual output bytes, so the estimated
ratio is `8/13 < 1`: the probe's ratio is not bounded below by 1 on
non-empty input, and it divides the scanned-byte count — not the input
length — by `oc`. -/
theorem entropy_probe_ratio_below_one :
    get_cratio_counts (List.range 20) 20 3 3 = (8, 13) ∧
    get_cratio (List.range 20) 20 3 3 < 1 := by
  have h : get_cratio_counts (List.range 20) 20 3 3 = (8, 13) := by decide
  refine ⟨h, ?_⟩
  unfold get_cratio
  rw [h]
  norm_num

/-- C8, amended: the virtual output counter starts at 5 and never
decreases, so the estimated ratio `ic / oc` is a well-defined non-negative
rational for every input — but it is not always `≥ 1`. -/
theorem entropy_probe_estimate_welldef (b : List Nat) (maxlen minlen ipshift : Nat) :
    5 ≤ (get_cratio_counts b maxlen minlen ipshift).2 ∧
    0 ≤ get_cratio b maxlen minlen ipshift := by
  constructor
  · unfold get_cratio_counts
    dsimp only
    exact get_cratio_scan_oc_mono b minlen ipshift _ _ _ _ 0 5 4
  · unfold get_cratio
    exact div_nonneg (Nat.cast_nonneg _) (Nat.cast_nonneg _)

/-- C9: the probe encoder returns the floored quotient
`input_len / cratio` clamped from above by `input_len`; in particular its
return value never exceeds `input_len`, and whenever the raw estimate is
larger it returns exactly `input_len`. -/
theorem encoder_le_input_len (input : List Nat) (input_len : Nat)
    (hpos : 0 < input_len) :
    encoder input input_len ≤ (input_len : ℤ) ∧
    (⌊(input_len : ℚ) / get_cratio input input_len 3 3⌋ > (input_len : ℤ) →
      encoder input input_len = (input_len : ℤ)) := by
  unfold encoder
  dsimp only
  constructor
  · split_ifs with hgt
    · exact le_refl _
    · omega
  · intro hgt
    rw [if_pos hgt]

/-- On the block `0,1,...,19` the raw estimate `⌊20 / (8/13)⌋ = 32`
exceeds the input length, so the clamp of `encoder` fires. -/
theorem encoder_le_input_len_witness :
    (0 < 20) ∧ encoder (List.range 20) 20 ≤ (20 : ℤ) :=
  ⟨by norm_num, (encoder_le_input_len (List.range 20) 20 (by norm_num)).1⟩

end BTune
